import Mathlib

/-!
# Verification of the data-masking / unmasking engine

A shallow embedding, in Lean 4, of the reversible context-aware masking
engine implemented in `data_masking.py` and `unmask_data.py`.

Python strings are modelled as `List Char` (a Python `str` is a sequence of
code points, and all indices in the source are code-point indices).
Python dictionaries are modelled as insertion-ordered association lists,
which matches CPython's guaranteed iteration order.

External collaborators (the `hashlib` hash, the `random` module's Mersenne
Twister and the `faker` name generator) are modelled by concrete
deterministic stand-ins with the same interface and the same seeding
discipline as the originals; the theorems below depend only on the
properties the source relies on (a draw of `randint(a, b)` lies in
`[a, b]`, re-seeding makes the stream a function of the seed alone).
-/

set_option maxRecDepth 10000

/-- Python strings are sequences of code points. -/
abbrev Str := List Char

/-- Convert a Lean string literal to the `Str` model. -/
def lit (s : String) : Str := s.toList

/-- `lo ≤ n ≤ hi` as a Bool. -/
def between (lo hi n : Nat) : Bool := decide (lo ≤ n) && decide (n ≤ hi)

/-! ## Character model

Case conversion and character classes for the alphabets this program
actually processes: ASCII plus the Cyrillic block (U+0400–U+045F) and
Ґ/ґ (U+0490/U+0491), which covers all Ukrainian text in the source. -/

def isAsciiUpperChar (c : Char) : Bool := between 65 90 c.toNat
def isAsciiLowerChar (c : Char) : Bool := between 97 122 c.toNat
def isCyrUpperChar (c : Char) : Bool :=
  between 0x400 0x42F c.toNat || decide (c.toNat = 0x490)
def isCyrLowerChar (c : Char) : Bool :=
  between 0x430 0x45F c.toNat || decide (c.toNat = 0x491)

/-- An uppercase character (Python `str.isupper` on one char). -/
def isUpperChar (c : Char) : Bool := isAsciiUpperChar c || isCyrUpperChar c
/-- A lowercase character (Python `str.islower` on one char). -/
def isLowerChar (c : Char) : Bool := isAsciiLowerChar c || isCyrLowerChar c
/-- A cased character. -/
def isCasedChar (c : Char) : Bool := isUpperChar c || isLowerChar c
/-- An ASCII decimal digit (model of Python `str.isdigit` / regex `\d`). -/
def isDigitChar (c : Char) : Bool := between 48 57 c.toNat
/-- A letter, for the purposes of this program's alphabets. -/
def isAlphaChar (c : Char) : Bool := isCasedChar c
/-- Regex `\w` with Unicode semantics: letter, digit or underscore. -/
def isWordChar (c : Char) : Bool :=
  isAlphaChar c || isDigitChar c || decide (c.toNat = 95)
/-- Python whitespace (`str.split()`, `strip()`, regex `\s`). -/
def isSpaceChar (c : Char) : Bool :=
  let n := c.toNat
  decide (n = 32) || between 9 13 n || decide (n = 160)

/-- Python `str.lower` on one character. -/
def pyToLower (c : Char) : Char :=
  let n := c.toNat
  if between 65 90 n then Char.ofNat (n + 32)
  else if between 0x410 0x42F n then Char.ofNat (n + 32)
  else if between 0x400 0x40F n then Char.ofNat (n + 80)
  else if n = 0x490 then Char.ofNat 0x491
  else c

/-- Python `str.upper` on one character. -/
def pyToUpper (c : Char) : Char :=
  let n := c.toNat
  if between 97 122 n then Char.ofNat (n - 32)
  else if between 0x430 0x44F n then Char.ofNat (n - 32)
  else if between 0x450 0x45F n then Char.ofNat (n - 80)
  else if n = 0x491 then Char.ofNat 0x490
  else c

/-- Python `str.lower`. -/
def pyLower (s : Str) : Str := s.map pyToLower
/-- Python `str.upper`. -/
def pyUpper (s : Str) : Str := s.map pyToUpper

/-- Python `str.capitalize`: first character uppercased, the rest lowered. -/
def pyCapitalize : Str → Str
  | [] => []
  | c :: rest => pyToUpper c :: pyLower rest

/-- Python `str.isupper`: at least one cased character and no lowercase one. -/
def pyIsUpper (s : Str) : Bool :=
  s.any isCasedChar && s.all (fun c => !isCasedChar c || isUpperChar c)

/-- Python `str.islower`: at least one cased character and no uppercase one. -/
def pyIsLower (s : Str) : Bool :=
  s.any isCasedChar && s.all (fun c => !isCasedChar c || isLowerChar c)

/-- Python `str.isdigit` (restricted to ASCII digits, the only digits that
occur in this program's data). -/
def pyIsDigit (s : Str) : Bool := !s.isEmpty && s.all isDigitChar

/-- Python `str.title`: uppercase a cased character that follows an uncased
one, lowercase a cased character that follows a cased one. -/
def pyTitleGo : Bool → Str → Str
  | _, [] => []
  | prevCased, c :: rest =>
    let c2 := if isCasedChar c then
        (if prevCased then pyToLower c else pyToUpper c) else c
    c2 :: pyTitleGo (isCasedChar c) rest

def pyTitle (s : Str) : Str := pyTitleGo false s

/-- Python `str.istitle`. -/
def pyIsTitleGo : Bool → Bool → Str → Bool
  | seenCased, _, [] => seenCased
  | seenCased, prevCased, c :: rest =>
    if isUpperChar c then
      (!prevCased) && pyIsTitleGo true true rest
    else if isLowerChar c then
      prevCased && pyIsTitleGo true true rest
    else
      pyIsTitleGo seenCased false rest

def pyIsTitle (s : Str) : Bool := pyIsTitleGo false false s

/-! ## Basic string operations (Python semantics) -/

/-- Python `s[:n]` for `n ≥ 0` (clamps). -/
def pyTake (n : Nat) (s : Str) : Str := s.take n
/-- Python `s[n:]` for `n ≥ 0` (clamps). -/
def pyDrop (n : Nat) (s : Str) : Str := s.drop n
/-- Python `s[a:b]` for `0 ≤ a ≤ b` (clamps). -/
def pySlice (a b : Nat) (s : Str) : Str := (s.take b).drop a
/-- Python `s[-n:]` for `n ≥ 1` (the last `n` characters, clamping). -/
def pyTakeLast (n : Nat) (s : Str) : Str := s.drop (s.length - n)
/-- Python `s[:-n]` for `n ≥ 1` (drop the last `n` characters, clamping). -/
def pyDropLast (n : Nat) (s : Str) : Str := s.take (s.length - n)

/-- Python `str.strip()` (no argument: strip whitespace). -/
def pyStrip (s : Str) : Str :=
  ((s.dropWhile isSpaceChar).reverse.dropWhile isSpaceChar).reverse

/-- Python `str.strip(chars)`. -/
def pyStripChars (chars : Str) (s : Str) : Str :=
  ((s.dropWhile (chars.contains ·)).reverse.dropWhile (chars.contains ·)).reverse

/-- Python `str.rstrip(chars)`. -/
def pyRstripChars (chars : Str) (s : Str) : Str :=
  (s.reverse.dropWhile (chars.contains ·)).reverse

/-- Python `str.split()` : split on runs of whitespace, no empty parts. -/
def pySplitWs (s : Str) : List Str :=
  (s.splitOnP isSpaceChar).filter (fun p => !p.isEmpty)

/-- Python `str.split(sep)` for a one-character separator: keeps empties. -/
def pySplitChar (sep : Char) (s : Str) : List Str :=
  s.splitOnP (fun c => c = sep)

/-- Python `sep.join(parts)` for a one-character separator. -/
def pyJoinChar (sep : Char) : List Str → Str
  | [] => []
  | [p] => p
  | p :: rest => p ++ sep :: pyJoinChar sep rest

/-- Python `" ".join(parts)`. -/
def pyJoinSpace (parts : List Str) : Str := pyJoinChar ' ' parts

/-- Does `pat` occur at the head of `s`? -/
def startsWith (pat s : Str) : Bool := s.take pat.length = pat

/-- First index at which `pat` occurs in `s` (Python `str.find`),
`none` when absent. -/
def pyFindGo (pat : Str) : Nat → Str → Nat → Option Nat
  | 0, _, _ => none
  | fuel + 1, s, pos =>
    if startsWith pat s then some pos
    else match s with
      | [] => none
      | _ :: rest => pyFindGo pat fuel rest (pos + 1)

def pyFind (pat s : Str) : Option Nat := pyFindGo pat (s.length + 1) s 0

/-- Python `pat in s` (substring containment). -/
def pyContains (pat s : Str) : Bool := (pyFind pat s).isSome

/-- Python `s.replace(old, new, 1)`: replace the first occurrence only.
`old = []` inserts `new` at the front, as Python does. -/
def pyReplaceFirst (old new s : Str) : Str :=
  match pyFind old s with
  | none => s
  | some i => pyTake i s ++ new ++ pyDrop (i + old.length) s

/-- Python `s.replace(old, new)` (all occurrences), by fuel on the suffix. -/
def pyReplaceAllGo (old new : Str) : Nat → Str → Str
  | 0, s => s
  | fuel + 1, s =>
    if old.isEmpty then s
    else if startsWith old s then new ++ pyReplaceAllGo old new fuel (pyDrop old.length s)
    else match s with
      | [] => []
      | c :: rest => c :: pyReplaceAllGo old new fuel rest

def pyReplaceAll (old new s : Str) : Str := pyReplaceAllGo old new (s.length + 1) s

/-! ## Models of the external libraries

`hashlib`, `random` and `faker` are external to the repository.  They are
modelled by concrete deterministic functions with the same seeding
interface.  Nothing below depends on the particular mixing constants,
only on determinism and on `randint a b ∈ [a, b]`. -/

/-- Model of the external hash (`hashlib.blake2b(...)`, interpreted as a
natural number): a 64-bit polynomial hash of the code points. -/
def hashModel (s : Str) : Nat :=
  s.foldl (fun h c => (h * 131 + c.toNat) % (2 ^ 64)) 5381

/-- `get_deterministic_seed` (data_masking.py): the hash of the UTF-8 text
of the original value, reduced modulo `2^32`. -/
def get_deterministic_seed (original : Str) : Nat :=
  hashModel original % (2 ^ 32)

/-- Model of the state of Python's global `random` generator. -/
structure RandState where
  s : Nat
deriving DecidableEq

/-- One step of the modelled generator (a 64-bit LCG). -/
def lcgNext (s : Nat) : Nat :=
  (6364136223846793005 * s + 1442695040888963407) % (2 ^ 64)

/-- Model of `random.seed(n)`. -/
def randSeed (n : Nat) : RandState := ⟨lcgNext (n % (2 ^ 64))⟩

/-- Draw a raw value and advance the state. -/
def drawNat (st : RandState) : Nat × RandState :=
  let s2 := lcgNext st.s
  ((s2 / 65536) % (2 ^ 32), ⟨s2⟩)

/-- Model of `random.randint(lo, hi)` for `lo ≤ hi` over `Int`. -/
def randintI (lo hi : Int) (st : RandState) : Int × RandState :=
  let (v, st2) := drawNat st
  (lo + (v % (hi - lo + 1).toNat), st2)

/-- Model of `random.randint(lo, hi)` over `Nat`. -/
def randint (lo hi : Nat) (st : RandState) : Nat × RandState :=
  let (v, st2) := drawNat st
  (lo + v % (hi - lo + 1), st2)

/-- Model of `random.choice(xs)` (`xs` nonempty in every use). -/
def randChoice (xs : List α) (default : α) (st : RandState) : α × RandState :=
  let (v, st2) := drawNat st
  ((xs.get? (v % xs.length)).getD default, st2)

/-- The decimal digit character for a drawn value `n ≤ 9`
(Python `str(randint(0, 9))`). -/
def digitChar (n : Nat) : Char :=
  if n = 0 then '0' else if n = 1 then '1' else if n = 2 then '2'
  else if n = 3 then '3' else if n = 4 then '4' else if n = 5 then '5'
  else if n = 6 then '6' else if n = 7 then '7' else if n = 8 then '8' else '9'

/-! ## Association lists (insertion-ordered Python dicts) -/

/-- First value bound to `k` (Python `d.get(k)`). -/
def alookup (k : Str) : List (Str × α) → Option α
  | [] => none
  | (k0, v0) :: rest => if k0 = k then some v0 else alookup k rest

/-- Python `k in d`. -/
def acontains (k : Str) (l : List (Str × α)) : Bool := (alookup k l).isSome

/-- Python `d[k] = v`: update in place when present, append when new
(CPython preserves insertion order). -/
def aset (k : Str) (v : α) : List (Str × α) → List (Str × α)
  | [] => [(k, v)]
  | (k0, v0) :: rest => if k0 = k then (k, v) :: rest else (k0, v0) :: aset k v rest

/-! ## The mapping store (`masking_dict`) and instance counters -/

/-- One record of the mapping store: `{"masked_as": ..., "instances": [...]}`. -/
structure MaskRecord where
  masked_as : Str
  instances : List Nat
deriving DecidableEq

/-- A category's mapping: original → record, insertion ordered. -/
abbrev CatMap := List (Str × MaskRecord)

/-- The `masking_dict` aggregate: `mappings` and `statistics`
(`version`/`timestamp`/`instance_tracking` carry no masking state). -/
structure MaskingDict where
  mappings : List (Str × CatMap)
  statistics : List (Str × Nat)
deriving DecidableEq

/-- Per-masked-value occurrence counters (`instance_counters`). -/
abbrev Counters := List (Str × Nat)

/-- `get_next_instance` (data_masking.py): `setdefault(masked, 0)` then
increment and return the new count. -/
def get_next_instance (masked_value : Str) (instance_counters : Counters) :
    Nat × Counters :=
  let cur := (alookup masked_value instance_counters).getD 0
  (cur + 1, aset masked_value (cur + 1) instance_counters)

/-- `add_to_mapping` (data_masking.py).  Returns the effective masked value
together with the updated store and counters.  The source indexes
`masking_dict["mappings"][category]` directly (the category is always
pre-created by `main()`); a missing category is modelled as the empty map. -/
def add_to_mapping (masking_dict : MaskingDict) (instance_counters : Counters)
    (category original masked : Str) : Str × MaskingDict × Counters :=
  let catMap := (alookup category masking_dict.mappings).getD []
  match alookup original catMap with
  | none =>
    let (n, counters2) := get_next_instance masked instance_counters
    let catMap2 := aset original ⟨masked, [n]⟩ catMap
    let stats2 := aset category ((alookup category masking_dict.statistics).getD 0 + 1)
        masking_dict.statistics
    (masked, ⟨aset category catMap2 masking_dict.mappings, stats2⟩, counters2)
  | some r =>
    let (n, counters2) := get_next_instance r.masked_as instance_counters
    let catMap2 := aset original ⟨r.masked_as, r.instances ++ [n]⟩ catMap
    (r.masked_as, ⟨aset category catMap2 masking_dict.mappings, masking_dict.statistics⟩,
      counters2)


/-! ## Masking run state

The mask functions mutate, besides the store and the counters, the global
`random` generator and the `faker` generator; the run state threads all
four explicitly. -/

structure MaskState where
  dict : MaskingDict
  counters : Counters
  rng : RandState
  faker : Nat
deriving DecidableEq

/-- `''.join([str(random.randint(0, 9)) for _ in range(n)])`. -/
def drawDigits : Nat → RandState → Str × RandState
  | 0, st => ([], st)
  | n + 1, st =>
    let (v, st2) := randint 0 9 st
    let (rest, st3) := drawDigits n st2
    (digitChar v :: rest, st3)

/-- `mask_ipn` (data_masking.py): keep the first three digits and the last
digit of a 10-digit string, redraw the middle six from the generator
seeded by the hash of the original; non-10-digit input passes through. -/
def mask_ipn (original : Str) (st : MaskState) : Str × MaskState :=
  match alookup original ((alookup (lit "ipn") st.dict.mappings).getD []) with
  | some r =>
    let out := add_to_mapping st.dict st.counters (lit "ipn") original r.masked_as
    (out.1, { st with dict := out.2.1, counters := out.2.2 })
  | none =>
    if ¬ (original.length = 10 ∧ pyIsDigit original) then (original, st)
    else
      let rng0 := randSeed (get_deterministic_seed original)
      let (middle, rng1) := drawDigits 6 rng0
      let masked := pyTake 3 original ++ middle ++ pyTakeLast 1 original
      let out := add_to_mapping st.dict st.counters (lit "ipn") original masked
      (out.1, { dict := out.2.1, counters := out.2.2, rng := rng1, faker := st.faker })


/-! ## Static data and heuristics for names and surnames -/

/-- Masking feature flags (module-level constants in the source). -/
def MASK_NAMES : Bool := true

/-- `ABBREVIATION_WHITELIST` (data_masking.py): abbreviations never masked
as surnames. -/
def ABBREVIATION_WHITELIST : List Str :=
  [lit "зсу", lit "моу", lit "всу", lit "дпсу", lit "нгу", lit "дснс",
   lit "сбу", lit "гур", lit "тцк", lit "сп", lit "кму", lit "отцксп"]

def GOOD_UKRAINIAN_NAMES_MALE : List Str :=
  [lit "андрій", lit "богдан", lit "віктор", lit "володимир", lit "дмитро",
   lit "ігор", lit "іван", lit "максим", lit "олег", lit "олексій",
   lit "петро", lit "сергій", lit "тарас", lit "юрій", lit "михайло",
   lit "василь", lit "роман", lit "артем", lit "денис", lit "євген",
   lit "костянтин", lit "павло", lit "станіслав", lit "ярослав"]

def GOOD_UKRAINIAN_NAMES_FEMALE : List Str :=
  [lit "анна", lit "вікторія", lit "галина", lit "дарія", lit "ірина",
   lit "катерина", lit "марія", lit "наталія", lit "олена", lit "оксана",
   lit "світлана", lit "тетяна", lit "юлія", lit "людмила", lit "надія",
   lit "валентина", lit "лариса", lit "ольга", lit "софія", lit "діана",
   lit "алла", lit "ганна", lit "любов"]

def PROBLEMATIC_NAMES : List Str :=
  [lit "макаліім", lit "серубаій", lit "аарон", lit "іїлія",
   lit "аадам", lit "іісус", lit "ааріон", lit "єєва",
   lit "мелхіор", lit "валтасар", lit "йосип", lit "євстахій",
   lit "еммануїл", lit "рафаїл", lit "самуїл", lit "ієремія"]

/-- Python `str.endswith(suffix)`. -/
def endsWith (suffix s : Str) : Bool :=
  decide (suffix.length ≤ s.length) && decide (s.drop (s.length - suffix.length) = suffix)

/-- `_apply_original_case` (identical in data_masking.py and
unmask_data.py): transfer UPPER / Title / lower casing from `original`
onto `masked`; any other casing maps to lower. -/
def apply_original_case (original masked : Str) : Str :=
  if original.isEmpty || masked.isEmpty then masked
  else if pyIsUpper original then pyUpper masked
  else if decide (1 < original.length) && isUpperChar (original.headD ' ')
      && pyIsLower original.tail then pyCapitalize masked
  else pyLower masked

/-- `detect_gender_by_patronymic` (data_masking.py). -/
def detect_gender_by_patronymic (patronymic : Str) : Str :=
  if patronymic.isEmpty then lit "unknown"
  else
    let pl := pyStripChars (lit ".,!?;") (pyLower patronymic)
    if ([lit "ович", lit "євич", lit "ійович", lit "йович", lit "овича",
         lit "євича", lit "ійовича", lit "йовича", lit "овичу", lit "євичу",
         lit "ійовичу", lit "йовичу", lit "овичем", lit "євичем",
         lit "ійовичем", lit "йовичем"].any (fun e => endsWith e pl))
      then lit "male"
    else if ([lit "івна", lit "ївна", lit "івни", lit "ївни", lit "івні",
              lit "ївні", lit "івною", lit "ївною"].any (fun e => endsWith e pl))
      then lit "female"
    else lit "unknown"

/-- `detect_name_case_and_gender` (data_masking.py): suffix heuristics
returning (grammatical case, gender). -/
def detect_name_case_and_gender (name : Str) : Str × Str :=
  if name.isEmpty then (lit "nominative", lit "male")
  else
    let nl := pyStripChars (lit ".,!?;") (pyLower name)
    if [lit "ом", lit "ем", lit "єм", lit "ім", lit "їм"].any
        (fun e => endsWith e nl) then (lit "instrumental", lit "male")
    else if ([lit "у", lit "ю"].any (fun e => endsWith e nl))
        && !([lit "ою", lit "єю", lit "ією"].any (fun e => endsWith e nl)) then
      (lit "dative", lit "male")
    else if ([lit "а", lit "я"].any (fun e => endsWith e nl))
        && decide (4 < name.length)
        && !([lit "ія", lit "ла", lit "на", lit "ра", lit "та", lit "ка",
              lit "га", lit "ва", lit "ня", lit "ся", lit "ша"].any
            (fun e => endsWith e nl)) then
      (lit "genitive", lit "male")
    else if [lit "ією", lit "ою", lit "єю"].any (fun e => endsWith e nl) then
      (lit "instrumental", lit "female")
    else if ([lit "і", lit "ї"].any (fun e => endsWith e nl))
        && decide (3 < name.length) then (lit "dative", lit "female")
    else if ([lit "ія", lit "а", lit "я"].any (fun e => endsWith e nl))
        && decide (2 < name.length) then (lit "nominative", lit "female")
    else (lit "nominative", lit "male")

/-- Adjacent doubled vowel, regex `([аеєиіїоуюя])\1` of
`is_easy_to_decline`. -/
def hasDoubledVowel : Str → Bool
  | a :: b :: rest =>
    ((lit "аеєиіїоуюя").contains a && decide (a = b)) || hasDoubledVowel (b :: rest)
  | _ => false

/-- `is_easy_to_decline` (data_masking.py). -/
def is_easy_to_decline (name : Str) (gender : Str) : Bool :=
  if name.isEmpty then false
  else
    let nl := pyLower name
    if PROBLEMATIC_NAMES.contains nl then false
    else if hasDoubledVowel nl then false
    else if decide (name.length < 4) || decide (9 < name.length) then false
    else if gender = lit "male" then
      if [lit "о", lit "а", lit "й", lit "ій", lit "р", lit "н", lit "л",
          lit "к", lit "м", lit "в", lit "т"].any (fun e => endsWith e nl) then
        if [lit "ілля", lit "савва", lit "лука", lit "кузьма",
            lit "фома"].contains nl then false
        else true
      else false
    else if gender = lit "female" then
      [lit "а", lit "я", lit "ія"].any (fun e => endsWith e nl)
    else false

/-- `apply_case_to_name` (data_masking.py): decline a generated name into
the detected grammatical case. -/
def apply_case_to_name (name0 : Str) (case gender : Str) : Str :=
  if name0.isEmpty then name0
  else
    let name := pyStrip name0
    if case = lit "nominative" then name
    else if gender = lit "male" then
      let stem :=
        if endsWith (lit "о") name || endsWith (lit "а") name then pyDropLast 1 name
        else if endsWith (lit "ій") name then pyDropLast 2 name ++ lit "і"
        else if endsWith (lit "й") name then pyDropLast 1 name
        else name
      if case = lit "genitive" then
        if endsWith (lit "о") name || endsWith (lit "а") name then
          stem ++ (if endsWith (lit "о") name then lit "а" else lit "и")
        else if endsWith (lit "ій") name || endsWith (lit "й") name then stem ++ lit "я"
        else stem ++ lit "а"
      else if case = lit "dative" then
        if endsWith (lit "о") name then stem ++ lit "у"
        else if endsWith (lit "а") name then stem ++ lit "і"
        else if endsWith (lit "ій") name || endsWith (lit "й") name then stem ++ lit "ю"
        else stem ++ lit "у"
      else if case = lit "instrumental" then
        if endsWith (lit "о") name then stem ++ lit "ом"
        else if endsWith (lit "а") name then stem ++ lit "ою"
        else if endsWith (lit "ій") name || endsWith (lit "й") name then stem ++ lit "єм"
        else stem ++ lit "ом"
      else name
    else if gender = lit "female" then
      let stem :=
        if endsWith (lit "ія") name then pyDropLast 2 name
        else if endsWith (lit "а") name || endsWith (lit "я") name then pyDropLast 1 name
        else name
      if case = lit "genitive" || case = lit "dative" then
        if endsWith (lit "ія") name then stem ++ lit "ії" else stem ++ lit "і"
      else if case = lit "instrumental" then
        if endsWith (lit "ія") name then stem ++ lit "ією" else stem ++ lit "ою"
      else name
    else name

/-! ## Faker model (external library)

The tables below are arbitrary model data standing in for the external
`faker uk_UA` providers; the generator state is a `Nat` advanced per draw,
re-seeded by `seed_instance`. -/

def FAKER_LAST_NAMES : List Str :=
  [lit "Шевченко", lit "Коваленко", lit "Бондаренко", lit "Жук",
   lit "Мельник", lit "Кравченко", lit "Ткачук", lit "Мороз"]

def FAKER_MALE_FIRST_NAMES : List Str :=
  [lit "Остап", lit "Назар", lit "Гриць", lit "Орест", lit "Устим",
   lit "Лаврін", lit "Гнат", lit "Зеновій"]

def FAKER_FEMALE_FIRST_NAMES : List Str :=
  [lit "Зоряна", lit "Орися", lit "Уляна", lit "Злата", lit "Роксолана",
   lit "Соломія", lit "Ярина", lit "Христина"]

def FAKER_MIDDLE_MALE_NAMES : List Str :=
  [lit "Петрович", lit "Іванович", lit "Олегович", lit "Тарасович"]

def FAKER_MIDDLE_FEMALE_NAMES : List Str :=
  [lit "Петрівна", lit "Іванівна", lit "Олегівна", lit "Тарасівна"]

/-- Model of `fake_uk.seed_instance(seed)`. -/
def fakerSeedInstance (seed : Nat) : Nat := seed % (2 ^ 64)

/-- Advance the modelled faker generator by one draw. -/
def fakerNext (st : Nat) : Nat × Nat :=
  let s2 := lcgNext st
  ((s2 / 65536) % (2 ^ 32), s2)

/-- Model of `fake_uk.last_name()`. -/
def fakerLastName (st : Nat) : Str × Nat :=
  let (v, st2) := fakerNext st
  ((FAKER_LAST_NAMES.get? (v % FAKER_LAST_NAMES.length)).getD (lit "Шевченко"), st2)

/-- Model of `fake_uk.first_name_male()` / `first_name_female()`. -/
def fakerFirstName (female : Bool) (st : Nat) : Str × Nat :=
  let (v, st2) := fakerNext st
  let tbl := if female then FAKER_FEMALE_FIRST_NAMES else FAKER_MALE_FIRST_NAMES
  ((tbl.get? (v % tbl.length)).getD (lit "Остап"), st2)

/-- Model of `fake_uk.middle_name_male()` / `middle_name_female()`. -/
def fakerMiddleName (female : Bool) (st : Nat) : Str × Nat :=
  let (v, st2) := fakerNext st
  let tbl := if female then FAKER_MIDDLE_FEMALE_NAMES else FAKER_MIDDLE_MALE_NAMES
  ((tbl.get? (v % tbl.length)).getD (lit "Петрович"), st2)

/-! ## Name and surname masking -/

/-- The `for attempt in range(max_attempts)` loop of `generate_easy_name`:
draw faker first names, skipping those with the wrong first letter or that
are hard to decline; remembers the last drawn name. -/
def gen_name_loop (female : Bool) (gender : Str) (first_letter : Char) :
    Nat → Nat → Option Str → Option Str × Option Str × Nat
  | 0, fk, last => (none, last, fk)
  | fuel + 1, fk, last =>
    let (name, fk2) := fakerFirstName female fk
    if decide (pyToLower (name.headD ' ') ≠ first_letter) then
      gen_name_loop female gender first_letter fuel fk2 (some name)
    else if is_easy_to_decline name gender then (some name, some name, fk2)
    else gen_name_loop female gender first_letter fuel fk2 (some name)

/-- `generate_easy_name` (data_masking.py): whitelist draw by first
letter, else a bounded faker search, else whitelist fallback.  Returns the
name with the final `random` generator state and faker state. -/
def generate_easy_name (gender : Str) (first_letter : Char) (seed : Nat)
    (fk : Nat) : Str × RandState × Nat :=
  let rng := randSeed seed
  let whitelist := if gender = lit "male" then GOOD_UKRAINIAN_NAMES_MALE
    else GOOD_UKRAINIAN_NAMES_FEMALE
  let available := whitelist.filter
    (fun n => pyToLower (n.headD ' ') = pyToLower first_letter)
  if !available.isEmpty then
    let (nm, rng2) := randChoice available [] rng
    (pyCapitalize nm, rng2, fk)
  else
    let female := gender = lit "female"
    match gen_name_loop female gender first_letter 50 fk none with
    | (some name, _, fk2) => (name, rng, fk2)
    | (none, last, fk2) =>
      if !whitelist.isEmpty then
        let (nm, rng2) := randChoice whitelist [] rng
        (pyCapitalize nm, rng2, fk2)
      else
        match last with
        | some l => (l, rng, fk2)
        | none =>
          let (nm, fk3) := fakerFirstName female fk2
          (nm, rng, fk3)

/-- `mask_surname` (data_masking.py): whitelist pass-through; repeats
reuse the stored mask; short originals (< 5) are replaced by a truncated
faker surname, longer ones keep the first 3 and last 2 characters around
a faker-derived middle of drawn length; casing is reapplied.  The source
has no check against the masked surname equalling the original. -/
def mask_surname (original : Str) (st : MaskState) : Str × MaskState :=
  if ABBREVIATION_WHITELIST.contains (pyLower original) then (original, st)
  else match alookup original ((alookup (lit "surname") st.dict.mappings).getD []) with
  | some r =>
    let out := add_to_mapping st.dict st.counters (lit "surname") original r.masked_as
    (out.1, { st with dict := out.2.1, counters := out.2.2 })
  | none =>
    let is_upper := pyIsUpper original
    let is_capitalize := match original with
      | [] => false
      | c :: rest => isUpperChar c && pyIsLower rest
    let seed := get_deterministic_seed original
    let rng0 := randSeed seed
    let fk0 := fakerSeedInstance seed
    let (fake_surname, fk1) := fakerLastName fk0
    let gen :=
      if original.length < 5 then
        let (t, rngA) := randint (max 3 (original.length - 1))
          (min 6 (original.length + 2)) rng0
        (if decide (t < fake_surname.length) then pyTake t fake_surname
         else fake_surname, rngA)
      else
        let (r1, rngA) := randint 2 7 rng0
        let middle_len := min r1 (fake_surname.length - 2)
        let middle := if decide (4 < fake_surname.length)
          then pySlice 1 (1 + middle_len) fake_surname
          else pySlice 1 (fake_surname.length - 1) fake_surname
        (pyTake 3 original ++ middle ++ pyTakeLast 2 original, rngA)
    let masked := if is_upper then pyUpper gen.1
      else if is_capitalize then pyCapitalize gen.1 else gen.1
    let out := add_to_mapping st.dict st.counters (lit "surname") original masked
    (out.1, { dict := out.2.1, counters := out.2.2, rng := gen.2, faker := fk1 })

/-- `mask_patronymic` (data_masking.py): keyed by the lowercased
patronymic; repeats reuse the stored mask with the occurrence's casing and
bump the instance counter directly. -/
def mask_patronymic (patronymic : Str) (gender : Str) (st : MaskState) :
    Str × MaskState :=
  if !MASK_NAMES || patronymic.isEmpty then (patronymic, st)
  else
    let is_upper := pyIsUpper patronymic
    let is_capitalize := if decide (1 < patronymic.length)
      then isUpperChar (patronymic.headD ' ') && pyIsLower patronymic.tail
      else false
    let pl := pyLower patronymic
    let catMap := (alookup (lit "patronymic") st.dict.mappings).getD []
    match alookup pl catMap with
    | some r =>
      let masked := r.masked_as
      let masked_with_case := apply_original_case patronymic masked
      let (n, counters2) := get_next_instance masked st.counters
      let catMap2 := aset pl ⟨r.masked_as, r.instances ++ [n]⟩ catMap
      (masked_with_case,
        { st with dict := ⟨aset (lit "patronymic") catMap2 st.dict.mappings,
            st.dict.statistics⟩, counters := counters2 })
    | none =>
      let seed := get_deterministic_seed pl
      let rng0 := randSeed seed
      let fk0 := fakerSeedInstance seed
      let (fake_p, fk1) := fakerMiddleName (gender ≠ lit "male") fk0
      let fake2 := if is_upper then pyUpper fake_p
        else if is_capitalize then pyCapitalize fake_p else pyLower fake_p
      let out := add_to_mapping st.dict st.counters (lit "patronymic") pl fake2
      (out.1, { dict := out.2.1, counters := out.2.2, rng := rng0, faker := fk1 })

/-- The self-mapping-avoidance loop of `mask_name`:
`while masked.lower() == original.lower() and attempts < 10`, perturbing
the seed by the attempt index.  Returns the final masked value, the final
attempt counter and the generator states. -/
def name_retry_loop (original case gender : Str) (first_letter : Char) :
    Nat → Nat → Str → RandState → Nat → Str × Nat × RandState × Nat
  | 0, attempts, masked, rng, fk => (masked, attempts, rng, fk)
  | fuel + 1, attempts, masked, rng, fk =>
    if pyLower masked = pyLower original then
      let seed := get_deterministic_seed (original ++ [digitChar attempts])
      let (new_name, rng2, fk2) := generate_easy_name gender first_letter seed fk
      let masked2 := apply_case_to_name new_name case gender
      name_retry_loop original case gender first_letter fuel (attempts + 1)
        masked2 rng2 fk2
    else (masked, attempts, rng, fk)

/-- The generation block of `mask_name` on a first encounter: detect case
and gender, generate a same-first-letter replacement, re-inflect, and run
the self-mapping-avoidance loop (≤ 10 attempts, seed perturbed by the
attempt index).  Returns ((masked value, attempts), generator states). -/
def mask_name_gen (original : Str) (gender_hint patronymic_hint : Option Str)
    (st : MaskState) : (Str × Nat) × RandState × Nat :=
  let cg := detect_name_case_and_gender original
  let case := cg.1
  let gender_from_name := cg.2
  let gender0 := match gender_hint with
    | some g => g
    | none => match patronymic_hint with
      | some p =>
        let g := detect_gender_by_patronymic p
        if g = lit "unknown" then gender_from_name else g
      | none => gender_from_name
  let gender := if gender0 = lit "unknown" then lit "male" else gender0
  let first_letter := pyToLower (original.headD ' ')
  let seed := get_deterministic_seed original
  let genOut := generate_easy_name gender first_letter seed st.faker
  let masked0 := apply_case_to_name genOut.1 case gender
  let loopOut := name_retry_loop original case gender first_letter 10 0 masked0
    genOut.2.1 genOut.2.2
  ((loopOut.1, loopOut.2.1), loopOut.2.2)

/-- The attempt counter of the retry loop actually run by `mask_name`. -/
def nameAttemptsOf (original : Str) (gender_hint patronymic_hint : Option Str)
    (st : MaskState) : Nat :=
  (mask_name_gen original gender_hint patronymic_hint st).1.2

/-- `mask_name` (data_masking.py): generate a same-gender, same-first-
letter replacement, re-inflected into the detected case, avoiding
self-mapping with at most 10 retries; reapply the original's casing
(also on the repeat path, Bug Fix 17). -/
def mask_name (original : Str) (gender_hint patronymic_hint : Option Str)
    (st : MaskState) : Str × MaskState :=
  let is_upper := pyIsUpper original
  let is_capitalize := match original with
    | [] => false
    | c :: rest => isUpperChar c && (decide (original.length = 1) || pyIsLower rest)
  let is_lower := pyIsLower original
  match alookup original ((alookup (lit "name") st.dict.mappings).getD []) with
  | some r =>
    let masked := if is_upper then pyUpper r.masked_as
      else if is_capitalize then pyCapitalize r.masked_as
      else if is_lower then pyLower r.masked_as else r.masked_as
    let out := add_to_mapping st.dict st.counters (lit "name") original masked
    (out.1, { st with dict := out.2.1, counters := out.2.2 })
  | none =>
    if original.isEmpty then (original, st)
    else
      let g := mask_name_gen original gender_hint patronymic_hint st
      let masked1 := g.1.1
      let masked := if is_upper then pyUpper masked1
        else if is_capitalize then pyCapitalize masked1
        else if is_lower then pyLower masked1 else masked1
      let out := add_to_mapping st.dict st.counters (lit "name") original masked
      (out.1, { dict := out.2.1, counters := out.2.2, rng := g.2.1, faker := g.2.2 })


/-! ## Rank data (spec-modelled)

`rank_data.py` is imported by both source files but is not among the
sources; the spec treats its tables as immutable lookup data.  The
hierarchies below are modelled from the spec (ordered hierarchies of base
male nominative forms per service category); their order and membership
follow the service-category rank regexes in data_masking.py and the
assertions in tests/test_rank_data.py. -/

def PRESERVE_CASE : Bool := true

/-- Modelled from the spec: `rank_data.ARMY_RANKS`, the ordered army
hierarchy (order taken from the army rank regex in data_masking.py). -/
def ARMY_RANKS : List Str :=
  [lit "рекрут", lit "рядовий", lit "солдат", lit "старший солдат",
   lit "ефрейтор", lit "молодший сержант", lit "сержант",
   lit "старший сержант", lit "головний сержант", lit "штабс-сержант",
   lit "майстер-сержант", lit "старший майстер-сержант",
   lit "головний майстер-сержант", lit "прапорщик",
   lit "старший прапорщик", lit "молодший лейтенант", lit "лейтенант",
   lit "старший лейтенант", lit "капітан", lit "майор",
   lit "підполковник", lit "полковник", lit "бригадний генерал",
   lit "генерал-майор", lit "генерал-лейтенант", lit "генерал"]

/-- Modelled from the spec: `rank_data.NAVAL_RANKS` (order from the naval
rank regex). -/
def NAVAL_RANKS : List Str :=
  [lit "матрос", lit "моряк", lit "старший матрос", lit "старший моряк",
   lit "молодший сержант", lit "сержант", lit "старший сержант",
   lit "головний сержант", lit "штабс-сержант", lit "майстер-сержант",
   lit "старший майстер-сержант", lit "головний майстер-сержант",
   lit "молодший лейтенант", lit "лейтенант", lit "старший лейтенант",
   lit "капітан-лейтенант", lit "капітан 3-го рангу",
   lit "капітан 2-го рангу", lit "капітан 1-го рангу",
   lit "контр-адмірал", lit "віце-адмірал", lit "адмірал"]

/-- Modelled from the spec: `rank_data.LEGAL_RANKS` (order from the legal
rank regex). -/
def LEGAL_RANKS : List Str :=
  [lit "молодший сержант юстиції", lit "сержант юстиції",
   lit "старший сержант юстиції", lit "головний сержант юстиції",
   lit "штабс-сержант юстиції", lit "молодший лейтенант юстиції",
   lit "лейтенант юстиції", lit "старший лейтенант юстиції",
   lit "капітан юстиції", lit "майор юстиції", lit "підполковник юстиції",
   lit "полковник юстиції", lit "генерал-майор юстиції",
   lit "генерал-лейтенант юстиції"]

/-- Modelled from the spec: `rank_data.MEDICAL_RANKS` (order from the
medical rank regex). -/
def MEDICAL_RANKS : List Str :=
  [lit "молодший сержант медичної служби", lit "сержант медичної служби",
   lit "старший сержант медичної служби",
   lit "головний сержант медичної служби",
   lit "штабс-сержант медичної служби",
   lit "молодший лейтенант медичної служби",
   lit "лейтенант медичної служби",
   lit "старший лейтенант медичної служби", lit "капітан медичної служби",
   lit "майор медичної служби", lit "підполковник медичної служби",
   lit "полковник медичної служби", lit "генерал-майор медичної служби",
   lit "генерал-лейтенант медичної служби"]

/-- Modelled from the spec: `rank_data.RANK_DECLENSIONS`, per-case forms
{nominative, genitive, dative, instrumental} of base male ranks (contents
cross-checked against tests/test_rank_data.py). -/
def RANK_DECLENSIONS : List (Str × List (Str × Str)) :=
  [(lit "солдат",
    [(lit "nominative", lit "солдат"), (lit "genitive", lit "солдата"),
     (lit "dative", lit "солдату"), (lit "instrumental", lit "солдатом")]),
   (lit "старший солдат",
    [(lit "nominative", lit "старший солдат"),
     (lit "genitive", lit "старшого солдата"),
     (lit "dative", lit "старшому солдату"),
     (lit "instrumental", lit "старшим солдатом")]),
   (lit "сержант",
    [(lit "nominative", lit "сержант"), (lit "genitive", lit "сержанта"),
     (lit "dative", lit "сержанту"), (lit "instrumental", lit "сержантом")]),
   (lit "старший сержант",
    [(lit "nominative", lit "старший сержант"),
     (lit "genitive", lit "старшого сержанта"),
     (lit "dative", lit "старшому сержанту"),
     (lit "instrumental", lit "старшим сержантом")]),
   (lit "молодший лейтенант",
    [(lit "nominative", lit "молодший лейтенант"),
     (lit "genitive", lit "молодшого лейтенанта"),
     (lit "dative", lit "молодшому лейтенанту"),
     (lit "instrumental", lit "молодшим лейтенантом")]),
   (lit "лейтенант",
    [(lit "nominative", lit "лейтенант"), (lit "genitive", lit "лейтенанта"),
     (lit "dative", lit "лейтенанту"),
     (lit "instrumental", lit "лейтенантом")]),
   (lit "старший лейтенант",
    [(lit "nominative", lit "старший лейтенант"),
     (lit "genitive", lit "старшого лейтенанта"),
     (lit "dative", lit "старшому лейтенанту"),
     (lit "instrumental", lit "старшим лейтенантом")]),
   (lit "капітан",
    [(lit "nominative", lit "капітан"), (lit "genitive", lit "капітана"),
     (lit "dative", lit "капітану"), (lit "instrumental", lit "капітаном")]),
   (lit "майор",
    [(lit "nominative", lit "майор"), (lit "genitive", lit "майора"),
     (lit "dative", lit "майору"), (lit "instrumental", lit "майором")]),
   (lit "підполковник",
    [(lit "nominative", lit "підполковник"),
     (lit "genitive", lit "підполковника"),
     (lit "dative", lit "підполковнику"),
     (lit "instrumental", lit "підполковником")]),
   (lit "полковник",
    [(lit "nominative", lit "полковник"), (lit "genitive", lit "полковника"),
     (lit "dative", lit "полковнику"),
     (lit "instrumental", lit "полковником")]),
   (lit "матрос",
    [(lit "nominative", lit "матрос"), (lit "genitive", lit "матроса"),
     (lit "dative", lit "матросу"), (lit "instrumental", lit "матросом")]),
   (lit "генерал",
    [(lit "nominative", lit "генерал"), (lit "genitive", lit "генерала"),
     (lit "dative", lit "генералу"), (lit "instrumental", lit "генералом")])]

/-- Modelled from the spec: `rank_data.RANK_FEMININE_MAP`, male base →
female base (values from the tests). -/
def RANK_FEMININE_MAP : List (Str × Str) :=
  [(lit "солдат", lit "солдатка"), (lit "сержант", lit "сержантка"),
   (lit "капітан", lit "капітанка"), (lit "майор", lit "майорка")]

/-- Modelled from the spec: `rank_data.RANK_DECLENSIONS_FEMALE`, per-case
forms of female base ranks. -/
def RANK_DECLENSIONS_FEMALE : List (Str × List (Str × Str)) :=
  [(lit "солдатка",
    [(lit "nominative", lit "солдатка"), (lit "genitive", lit "солдатки"),
     (lit "dative", lit "солдатці"), (lit "instrumental", lit "солдаткою")]),
   (lit "сержантка",
    [(lit "nominative", lit "сержантка"), (lit "genitive", lit "сержантки"),
     (lit "dative", lit "сержантці"),
     (lit "instrumental", lit "сержанткою")]),
   (lit "капітанка",
    [(lit "nominative", lit "капітанка"), (lit "genitive", lit "капітанки"),
     (lit "dative", lit "капітанці"),
     (lit "instrumental", lit "капітанкою")]),
   (lit "майорка",
    [(lit "nominative", lit "майорка"), (lit "genitive", lit "майорки"),
     (lit "dative", lit "майорці"), (lit "instrumental", lit "майоркою")])]

/-- Modelled from the spec: `rank_data.RANK_TO_NOMINATIVE`, the reverse
index form → (base male nominative, case, gender), assembled from the
declension tables as the tests require. -/
def RANK_TO_NOMINATIVE : List (Str × (Str × Str × Str)) :=
  (RANK_DECLENSIONS.foldl (fun acc kv =>
      kv.2.foldl (fun acc2 cf =>
        acc2 ++ [(pyLower cf.2, (kv.1, cf.1, lit "male"))]) acc) [])
  ++ (RANK_FEMININE_MAP.foldl (fun acc mf =>
      match alookup mf.2 RANK_DECLENSIONS_FEMALE with
      | some cases => cases.foldl (fun acc2 cf =>
          acc2 ++ [(pyLower cf.2, (mf.1, cf.1, lit "female"))]) acc
      | none => acc) [])

/-- Stable insertion sort, descending by length (ties keep list order). -/
def insertLenDesc (x : Str) : List Str → List Str
  | [] => [x]
  | y :: ys => if y.length < x.length then x :: y :: ys else y :: insertLenDesc x ys

def sortLenDesc (l : List Str) : List Str := l.foldl (fun acc x => insertLenDesc x acc) []

/-- Modelled from the spec: `rank_data.ALL_RANK_FORMS`, every inflected
form, sorted longest first (the tests require length-descending order). -/
def ALL_RANK_FORMS : List Str := sortLenDesc (RANK_TO_NOMINATIVE.map (fun kv => kv.1))

/-- Modelled from the spec: `rank_data.RANKS_LIST`, the final list of all
rank forms, sorted longest first. -/
def RANKS_LIST : List Str := ALL_RANK_FORMS

/-! ## Rank grammar resolver and rank masking -/

/-- `get_rank_info` (identical in both source files): reverse-index lookup
of a rank form, `none` when unrecognized. -/
def get_rank_info (rank_form : Str) : Option (Str × Str × Str) :=
  alookup (pyLower rank_form) RANK_TO_NOMINATIVE

/-- `get_rank_in_case` (data_masking.py). -/
def get_rank_in_case (nominative_rank : Str) (target_case : Str) : Str :=
  match alookup nominative_rank RANK_DECLENSIONS with
  | none => nominative_rank
  | some cases => (alookup target_case cases).getD nominative_rank

/-- One alternative of a service-category rank regex: a literal, or the
naval `капітан \d+-го рангу` alternative. -/
inductive RankAlt where
  | plain (s : Str)
  | kapitanRangu
deriving DecidableEq

/-- Match one alternative at the head of `s`; returns the matched length. -/
def matchRankAlt : RankAlt → Str → Option Nat
  | RankAlt.plain p, s => if startsWith p s then some p.length else none
  | RankAlt.kapitanRangu, s =>
    if startsWith (lit "капітан ") s then
      let rest := pyDrop 8 s
      let digits := rest.takeWhile isDigitChar
      if digits.isEmpty then none
      else if startsWith (lit "-го рангу") (pyDrop digits.length rest) then
        some (8 + digits.length + 9)
      else none
    else none

/-- The alternation lists of `RANK_PATTERNS` (data_masking.py), in source
order per category. -/
def RANK_PATTERN_ALTS : List (Str × List RankAlt) :=
  [(lit "army", ARMY_RANKS.map RankAlt.plain),
   (lit "naval",
    [RankAlt.plain (lit "матрос"), RankAlt.plain (lit "моряк"),
     RankAlt.plain (lit "старший матрос"), RankAlt.plain (lit "старший моряк"),
     RankAlt.plain (lit "молодший сержант"), RankAlt.plain (lit "сержант"),
     RankAlt.plain (lit "старший сержант"),
     RankAlt.plain (lit "головний сержант"),
     RankAlt.plain (lit "штабс-сержант"),
     RankAlt.plain (lit "майстер-сержант"),
     RankAlt.plain (lit "старший майстер-сержант"),
     RankAlt.plain (lit "головний майстер-сержант"),
     RankAlt.plain (lit "молодший лейтенант"), RankAlt.plain (lit "лейтенант"),
     RankAlt.plain (lit "старший лейтенант"),
     RankAlt.plain (lit "капітан-лейтенант"), RankAlt.kapitanRangu,
     RankAlt.plain (lit "контр-адмірал"), RankAlt.plain (lit "віце-адмірал"),
     RankAlt.plain (lit "адмірал")]),
   (lit "legal", LEGAL_RANKS.map RankAlt.plain),
   (lit "medical", MEDICAL_RANKS.map RankAlt.plain)]

/-- `re.search` of `\b(alt1|alt2|...)\b`: at each position (left to
right) with a word boundary before it, try the alternatives in order and
accept the first whose end also sits on a word boundary. -/
def searchAltsAt (alts : List RankAlt) (s : Str) : Option Nat :=
  alts.firstM (fun alt =>
    match matchRankAlt alt s with
    | some len =>
      match (pyDrop len s).head? with
      | none => some len
      | some c => if isWordChar c then none else some len
    | none => none)

def searchAltsGo (alts : List RankAlt) : Nat → Option Char → Str → Option Str
  | 0, _, _ => none
  | fuel + 1, prev, s =>
    let boundaryOk := match prev with
      | none => true
      | some c => !isWordChar c
    match (if boundaryOk then searchAltsAt alts s else none) with
    | some len => some (pyTake len s)
    | none =>
      match s with
      | [] => none
      | c :: rest => searchAltsGo alts fuel (some c) rest

/-- `get_rank_category_and_match` (data_masking.py): try the four category
patterns in order on the lowercased text. -/
def get_rank_category_and_match (text : Str) : Option (Str × Str) :=
  let tl := pyLower text
  RANK_PATTERN_ALTS.firstM (fun ca =>
    (searchAltsGo ca.2 (tl.length + 1) none tl).map (fun m => (ca.1, m)))

/-- First index of `x` in a list (Python `list.index`). -/
def listIdx (x : Str) : List Str → Option Nat
  | [] => none
  | y :: rest => if y = x then some 0 else (listIdx x rest).map (fun i => i + 1)

/-- The shift population `[-2, -1, 1, 2]` of the rank masking draw. -/
def RANK_SHIFTS : List Int := [-2, -1, 1, 2]

/-- `max(0, min(len(hierarchy) - 1, idx + shift))`. -/
def clampIdx (len idx : Nat) (shift : Int) : Nat :=
  (max 0 (min ((len : Int) - 1) ((idx : Int) + shift))).toNat

/-- The `while masked.lower() == original_key and attempts < 10` redraw
loop of `mask_rank`. -/
def rank_retry_loop (key : Str) (hierarchy : List Str) (idx : Nat) :
    Nat → Nat → Str → RandState → Str × Nat × RandState
  | 0, attempts, masked, rng => (masked, attempts, rng)
  | fuel + 1, attempts, masked, rng =>
    if pyLower masked = key then
      let (shift, rng2) := randChoice RANK_SHIFTS 0 rng
      let masked2 := (hierarchy.get? (clampIdx hierarchy.length idx shift)).getD (lit "")
      rank_retry_loop key hierarchy idx fuel (attempts + 1) masked2 rng2
    else (masked, attempts, rng)

/-- The tail of `mask_rank` after the shifted base has been chosen:
re-inflect into the detected case, record the mapping, and reapply the
original casing (hyphenated-Title, multiword-Title, or plain transfer). -/
def rank_finalize (original key : Str) (detected_case : Option Str)
    (masked1 : Str) (st : MaskState) (rngF : RandState) : Str × MaskState :=
  let masked2 := match detected_case with
    | some dc => if dc ≠ lit "nominative" then get_rank_in_case masked1 dc else masked1
    | none => masked1
  let out := add_to_mapping st.dict st.counters (lit "rank") key masked2
  let final := out.1
  let res := if PRESERVE_CASE then
      if pyContains (lit "-") original && pyIsTitle original then pyTitle final
      else
        let words := pySplitWs original
        if decide (1 < words.length)
            && words.all (fun w => !w.isEmpty && isUpperChar (w.headD ' ')) then
          pyTitle final
        else apply_original_case original final
    else final
  (res, { dict := out.2.1, counters := out.2.2, rng := rngF, faker := st.faker })

/-- The generation path of `mask_rank`: locate the category hierarchy and
the base index, draw a shift in {-2, -1, 1, 2}, clamp, retry at most 10
times while the base equals the original key, then finalize. -/
def mask_rank_generate (original key : Str) (detected_case : Option Str)
    (st : MaskState) : Str × MaskState :=
  match get_rank_category_and_match key with
  | none => (original, st)
  | some cm =>
    let category_name := cm.1
    let matched := cm.2
    let hierOpt : Option (List Str) :=
      if category_name = lit "army" then some ARMY_RANKS
      else if category_name = lit "naval" then some NAVAL_RANKS
      else if category_name = lit "legal" then some LEGAL_RANKS
      else if category_name = lit "medical" then some MEDICAL_RANKS
      else none
    match hierOpt with
    | none => (original, st)
    | some hierarchy =>
      match listIdx (pyLower matched) (hierarchy.map pyLower) with
      | none => (original, st)
      | some idx =>
        let rng0 := randSeed (get_deterministic_seed key)
        let (shift, rng1) := randChoice RANK_SHIFTS 0 rng0
        let masked0 := (hierarchy.get? (clampIdx hierarchy.length idx shift)).getD (lit "")
        let loopOut := rank_retry_loop key hierarchy idx 10 0 masked0 rng1
        rank_finalize original key detected_case loopOut.1 st loopOut.2.2

/-- `mask_rank` (data_masking.py).  A recorded key is reused (unless the
key is itself some other original's mask, in which case generation runs
again); otherwise the hierarchy-shift generation runs. -/
def mask_rank (original : Str) (st : MaskState) : Str × MaskState :=
  let key := pyLower original
  let detected_case : Option Str := (get_rank_info key).map (fun t => t.2.1)
  let rankMap := (alookup (lit "rank") st.dict.mappings).getD []
  match alookup key rankMap with
  | some r =>
    let is_someone := rankMap.any (fun kv =>
      pyLower kv.2.masked_as = key && kv.1 ≠ key)
    if !is_someone then
      let out := add_to_mapping st.dict st.counters (lit "rank") key r.masked_as
      let final := out.1
      let res := if PRESERVE_CASE then apply_original_case original final else final
      (res, { st with dict := out.2.1, counters := out.2.2 })
    else mask_rank_generate original key detected_case st
  | none => mask_rank_generate original key detected_case st

/-- `extract_base_rank` (identical in both source files): split compound
rank text into the base rank and trailing service-type/status words. -/
def extract_base_rank (full0 : Str) : Str × Str :=
  if full0.isEmpty then (full0, [])
  else
    let servicePhrases := [lit "медичної служби", lit "юстиції"]
    let statusPhrases := [lit "у відставці", lit "в запасі", lit "у запасі",
      lit "на пенсії", lit "в резерві", lit "у резерві"]
    let frl0 := pyLower full0
    let stage1 :=
      match servicePhrases.find? (fun p => pyContains p frl0) with
      | some ph =>
        let i := (pyFind ph frl0).getD 0
        (pyStrip (pyTake i full0), [pySlice i (i + ph.length) full0],
         pyStrip (pyDrop (i + ph.length) full0))
      | none => (full0, ([] : List Str), full0)
    let base1 := stage1.1
    let parts1 := stage1.2.1
    let full1 := stage1.2.2
    let frl1 := pyLower full1
    match statusPhrases.find? (fun p => pyContains p frl1) with
    | some ph =>
      let i := (pyFind ph frl1).getD 0
      let base2 := if parts1.isEmpty then pyStrip (pyTake i full1) else base1
      (base2, pyJoinSpace (parts1 ++ [pySlice i (i + ph.length) full1]))
    | none => (base1, pyJoinSpace parts1)

/-- `mask_rank_preserve_case` (data_masking.py): split off trailing words,
mask the base male form, re-inflect into the detected case and gender
(consulting the female tables when needed), reapply casing, reattach the
trailing words. -/
def mask_rank_preserve_case (original_text : Str) (st : MaskState) :
    Str × MaskState :=
  let ex := extract_base_rank original_text
  let base_rank_text := ex.1
  let additional_words := ex.2
  match get_rank_info base_rank_text with
  | none =>
    let mr := mask_rank base_rank_text st
    (if additional_words.isEmpty then mr.1
     else mr.1 ++ [' '] ++ additional_words, mr.2)
  | some info =>
    let base_male_form := info.1
    let detected_case := info.2.1
    let gender := info.2.2
    let mr := mask_rank base_male_form st
    let masked_base_male := mr.1
    let maleDecl :=
      match alookup (pyLower masked_base_male) RANK_DECLENSIONS with
      | some cases =>
        if !detected_case.isEmpty then (alookup detected_case cases).getD masked_base_male
        else masked_base_male
      | none => masked_base_male
    let final_rank :=
      if gender = lit "female" then
        match alookup (pyLower masked_base_male) RANK_FEMININE_MAP with
        | some fem =>
          match alookup fem RANK_DECLENSIONS_FEMALE with
          | some cases =>
            if !detected_case.isEmpty then (alookup detected_case cases).getD fem
            else fem
          | none => fem
        | none => maleDecl
      else maleDecl
    let final2 := if PRESERVE_CASE && !final_rank.isEmpty
      then apply_original_case base_rank_text final_rank else final_rank
    let result := if !final2.isEmpty then final2 else masked_base_male
    (if additional_words.isEmpty then result
     else result ++ [' '] ++ additional_words, mr.2)



/-! ## Reverse engine: instance map and the generic unmask pass -/

/-- Lookup in a `Nat`-keyed insertion-ordered dict. -/
def nlookup (k : Nat) : List (Nat × Str) → Option Str
  | [] => none
  | (k0, v0) :: rest => if k0 = k then some v0 else nlookup k rest

/-- Update/append in a `Nat`-keyed insertion-ordered dict. -/
def nset (k : Nat) (v : Str) : List (Nat × Str) → List (Nat × Str)
  | [] => [(k, v)]
  | (k0, v0) :: rest => if k0 = k then (k, v) :: rest else (k0, v0) :: nset k v rest

/-- `build_instance_map` (unmask_data.py): masked_value →
{instance_number → original}, iterating categories and originals in
insertion order. -/
def build_instance_map (mappings : List (Str × CatMap)) :
    List (Str × List (Nat × Str)) :=
  mappings.foldl (fun acc cat =>
    cat.2.foldl (fun acc2 orig =>
      let masked_value := orig.2.masked_as
      let cur := (alookup masked_value acc2).getD []
      let cur2 := orig.2.instances.foldl (fun m n => nset n orig.1 m) cur
      aset masked_value cur2 acc2) acc) []

/-- `find_all_occurrences` (unmask_data.py): all case-insensitive
whole-word occurrences `(?<!\w)pattern(?!\w)` of the escaped literal,
left to right, non-overlapping (the scan resumes at each match end).  An
empty pattern yields no occurrences. -/
def findAllOccGo (pat : Str) : Nat → Option Char → Str → Nat → List (Nat × Nat)
  | 0, _, _, _ => []
  | fuel + 1, prev, s, pos =>
    let behindOk := match prev with
      | none => true
      | some c => !isWordChar c
    let aheadOk := match (pyDrop pat.length s).head? with
      | none => true
      | some c => !isWordChar c
    if behindOk && decide (pyLower (pyTake pat.length s) = pyLower pat
        ∧ pat.length ≤ s.length) && aheadOk && decide (0 < pat.length) then
      (pos, pos + pat.length) ::
        findAllOccGo pat fuel (pyTake pat.length s).getLast?
          (pyDrop pat.length s) (pos + pat.length)
    else match s with
      | [] => []
      | c :: rest => findAllOccGo pat fuel (some c) rest (pos + 1)

def find_all_occurrences (text pattern : Str) : List (Nat × Nat) :=
  findAllOccGo pattern (text.length + 1) none text 0

/-- One scheduled replacement of the generic pass:
(start, end, original, masked). -/
abbrev Repl := Nat × Nat × Str × Str

/-- Stable insertion keeping larger start offsets first
(Python `list.sort(key=start, reverse=True)` is stable). -/
def insertStartDesc (x : Repl) : List Repl → List Repl
  | [] => [x]
  | y :: ys => if y.1 < x.1 then x :: y :: ys else y :: insertStartDesc x ys

def sortStartDesc (l : List Repl) : List Repl :=
  l.foldl (fun acc x => insertStartDesc x acc) []

/-- Execute one replacement of the generic pass: verify the masked value
is still in place (case-insensitively), transfer the occurrence's casing
onto the original, splice. -/
def applyRepl (text : Str) (r : Repl) : Str :=
  if pyLower (pySlice r.1 r.2.1 text) = pyLower r.2.2.2 then
    pyTake r.1 text ++ apply_original_case (pySlice r.1 r.2.1 text) r.2.2.1
      ++ pyDrop r.2.1 text
  else text

/-- Number the occurrences 1, 2, ... and look each number up in the
instance map (`enumerate(occurrences, 1)`). -/
def numberOccs (instToOrig : List (Nat × Str)) (masked : Str) :
    Nat → List (Nat × Nat) → List Repl × Nat × Nat
  | _, [] => ([], 0, 0)
  | i, occ :: rest =>
    let out := numberOccs instToOrig masked (i + 1) rest
    match nlookup i instToOrig with
    | some original => ((occ.1, occ.2, original, masked) :: out.1,
        out.2.1 + 1, out.2.2)
    | none => (out.1, out.2.1, out.2.2 + 1)

/-- `unmask_other_data` (unmask_data.py): drop the rank category, build
the instance map, schedule one replacement per matching occurrence number,
and execute the replacements in descending start order.  Returns the text
with (restored_count, skipped_count). -/
def unmask_other_data (masked_text : Str) (mappings : List (Str × CatMap)) :
    Str × Nat × Nat :=
  let mappings_copy := mappings.filter (fun kv => kv.1 ≠ lit "rank")
  let instance_map := build_instance_map mappings_copy
  let collected := instance_map.foldl (fun acc mv =>
    let occurrences := find_all_occurrences masked_text mv.1
    let out := numberOccs mv.2 mv.1 1 occurrences
    (acc.1 ++ out.1, acc.2.1 + out.2.1, acc.2.2 + out.2.2)) (([] : List Repl), 0, 0)
  let sorted := sortStartDesc collected.1
  (sorted.foldl applyRepl masked_text, collected.2.1, collected.2.2)


/-! ## Span detection (the ordered passes of `mask_text_context_aware`) -/

/-- Remaining masking feature flags (module constants, all `True`). -/
def MASK_IPN : Bool := true
def MASK_PASSPORT : Bool := true
def MASK_MILITARY_ID : Bool := true
def MASK_RANKS : Bool := true
def MASK_BRIGADES : Bool := true
def MASK_UNITS : Bool := true
def MASK_ORDERS : Bool := true
def MASK_BR_NUMBERS : Bool := true
def MASK_DATES : Bool := true

/-- A detected span: its `type` tag, the matched text, the maskable part,
and character offsets (skip spans reuse the same shape). -/
structure SpanItem where
  ty : Str
  full_text : Str
  number_part : Str
  start : Nat
  stop : Nat
deriving DecidableEq

/-- Case-insensitive literal prefix match. -/
def startsWithCI (pat s : Str) : Bool :=
  decide (pat.length ≤ s.length) && decide (pyLower (pyTake pat.length s) = pyLower pat)

/-- Python `str.count(ch)`. -/
def countChar (ch : Char) (s : Str) : Nat := (s.filter (fun c => c = ch)).length

/-- The regex class `[А-Яа-яA-Za-z]` (no Ukrainian і/ї/є/ґ). -/
def isRuAsciiLetter (c : Char) : Bool :=
  between 0x410 0x44F c.toNat || isAsciiUpperChar c || isAsciiLowerChar c

def strToNat (s : Str) : Nat := s.foldl (fun a c => a * 10 + (c.toNat - 48)) 0

def isLeap (y : Nat) : Bool :=
  (decide (y % 4 = 0) && decide (y % 100 ≠ 0)) || decide (y % 400 = 0)

def daysInMonth (m y : Nat) : Nat :=
  if m = 2 then (if isLeap y then 29 else 28)
  else if m = 4 || m = 6 || m = 9 || m = 11 then 30 else 31

/-- `is_valid_date` (data_masking.py): year in [2015, 2035] and a valid
calendar date (`datetime` would raise otherwise). -/
def is_valid_date (d m y : Nat) : Bool :=
  if decide (y < 2015) || decide (2035 < y) then false
  else between 1 12 m && between 1 (daysInMonth m y) d

/-- Generic `re.finditer`: scan left to right, non-overlapping, resuming
after each match; the matcher sees the previous character (for `\b`) and
the suffix, and returns the match length with a payload. -/
def reFinditer (m : Option Char → Str → Option (Nat × α)) :
    Nat → Option Char → Str → Nat → List (Nat × Nat × α)
  | 0, _, _, _ => []
  | fuel + 1, prev, s, pos =>
    match m prev s with
    | some (len, a) =>
      if len = 0 then
        match s with
        | [] => []
        | c :: rest => reFinditer m fuel (some c) rest (pos + 1)
      else
        (pos, pos + len, a) ::
          reFinditer m fuel (pyTake len s).getLast? (pyDrop len s) (pos + len)
    | none =>
      match s with
      | [] => []
      | c :: rest => reFinditer m fuel (some c) rest (pos + 1)

/-- `\b` before a word character: the previous character, if any, is not
a word character. -/
def boundaryBefore (prev : Option Char) : Bool :=
  match prev with
  | none => true
  | some c => !isWordChar c

/-- `\b` after a word character: the next character, if any, is not a
word character. -/
def boundaryAfterAt (s : Str) (len : Nat) : Bool :=
  match (pyDrop len s).head? with
  | none => true
  | some c => !isWordChar c

/-- Matcher for `\b\d{n}\b` (an exact run of `n` digits). -/
def matchDigitRun (n : Nat) (prev : Option Char) (s : Str) : Option (Nat × Str) :=
  let d := s.takeWhile isDigitChar
  if boundaryBefore prev && decide (d.length = n) && boundaryAfterAt s n then
    some (n, d)
  else none

/-- The letter class `[A-ZА-Я]` under IGNORECASE (ASCII or Cyrillic А-Я
of either case). -/
def isMilIdLetter (c : Char) : Bool :=
  isAsciiUpperChar c || isAsciiLowerChar c || between 0x410 0x44F c.toNat

/-- Matcher for `\b[A-ZА-Я]{2}[\s-]?\d{6}\b` (IGNORECASE): two
letters, an optional space or dash, exactly six digits. -/
def matchMilitaryId (prev : Option Char) (s : Str) : Option (Nat × Str) :=
  match s with
  | c1 :: c2 :: rest =>
    if boundaryBefore prev && isMilIdLetter c1 && isMilIdLetter c2 then
      let sep := match rest.head? with
        | some c => if isSpaceChar c || decide (c = '-') then 1 else 0
        | none => 0
      let digits := (pyDrop sep rest).takeWhile isDigitChar
      if decide (digits.length = 6) && boundaryAfterAt s (2 + sep + 6) then
        some (2 + sep + 6, pyTake (2 + sep + 6) s)
      else
        -- backtrack: try without the optional separator
        let digits2 := rest.takeWhile isDigitChar
        if decide (sep = 1) && decide (digits2.length = 6) && boundaryAfterAt s 8 then
          some (8, pyTake 8 s)
        else none
    else none
  | _ => none

/-- The class `[А-ЯA-Z]` (uppercase only, no IGNORECASE). -/
def isUnitLetter (c : Char) : Bool :=
  between 0x410 0x42F c.toNat || isAsciiUpperChar c

/-- Matcher for `\b[А-ЯA-Z]\d{4}\b`. -/
def matchMilitaryUnit (prev : Option Char) (s : Str) : Option (Nat × Str) :=
  match s with
  | c :: rest =>
    if boundaryBefore prev && isUnitLetter c then
      let digits := rest.takeWhile isDigitChar
      if decide (digits.length = 4) && boundaryAfterAt s 5 then
        some (5, pyTake 5 s)
      else none
    else none
  | [] => none

/-- The brigade keyword alternatives, in the source alternation order. -/
def BRIGADE_KEYWORDS : List Str :=
  [lit "окремої механізованої бригади", lit "омбр", lit "ошп", lit "ошбр",
   lit "бригади", lit "окремої штурмової бригади",
   lit "десантно-штурмової бригади", lit "дшб", lit "танкової бригади",
   lit "тбр"]

/-- Matcher for `\b(\d+)\s+(keyword-alternation)\b` (IGNORECASE).
Payload: the digit group. -/
def matchBrigade (prev : Option Char) (s : Str) : Option (Nat × Str) :=
  let digits := s.takeWhile isDigitChar
  if boundaryBefore prev && decide (0 < digits.length) then
    let afterD := pyDrop digits.length s
    let sp := (afterD.takeWhile isSpaceChar).length
    if decide (0 < sp) then
      let afterSp := pyDrop sp afterD
      match BRIGADE_KEYWORDS.firstM (fun kw =>
        if startsWithCI kw afterSp && boundaryAfterAt afterSp kw.length then
          some kw.length
        else none) with
      | some kwlen => some (digits.length + sp + kwlen, digits)
      | none => none
    else none
  else none

/-- Matcher for `\b(\d{2})\.(\d{2})\.(\d{4})\b`.
Payload: (day, month, year). -/
def matchDateRe (prev : Option Char) (s : Str) : Option (Nat × (Nat × Nat × Nat)) :=
  match s with
  | d1 :: d2 :: p1 :: m1 :: m2 :: p2 :: y1 :: y2 :: y3 :: y4 :: _ =>
    if boundaryBefore prev && isDigitChar d1 && isDigitChar d2
        && decide (p1 = '.') && isDigitChar m1 && isDigitChar m2
        && decide (p2 = '.') && isDigitChar y1 && isDigitChar y2
        && isDigitChar y3 && isDigitChar y4 && boundaryAfterAt s 10 then
      some (10, (strToNat [d1, d2], strToNat [m1, m2], strToNat [y1, y2, y3, y4]))
    else none
  | _ => none

/-- Matcher for `\b\d{1,2}[.\-]\d{1,2}[.\-]\d{2,4}\b`
(`UKRAINIAN_DATE_PATTERN`), greedy with backtracking on the digit runs. -/
def matchUkrDate (prev : Option Char) (s : Str) : Option (Nat × Unit) :=
  if !boundaryBefore prev then none
  else
    let tryFrom := fun (dl : Nat) =>
      let d := pyTake dl s
      if d.length = dl && d.all isDigitChar then
        match (pyDrop dl s).head? with
        | some c =>
          if decide (c = '.') || decide (c = '-') then
            let s2 := pyDrop (dl + 1) s
            let tryMid := fun (ml : Nat) =>
              let m := pyTake ml s2
              if m.length = ml && m.all isDigitChar then
                match (pyDrop ml s2).head? with
                | some c2 =>
                  if decide (c2 = '.') || decide (c2 = '-') then
                    let s3 := pyDrop (ml + 1) s2
                    let tryYear := fun (yl : Nat) =>
                      let y := pyTake yl s3
                      if y.length = yl && y.all isDigitChar
                          && boundaryAfterAt s (dl + 1 + ml + 1 + yl) then
                        some (dl + 1 + ml + 1 + yl, ())
                      else none
                    (tryYear 4).orElse (fun _ => (tryYear 3).orElse (fun _ => tryYear 2))
                  else none
                | none => none
              else none
            (tryMid 2).orElse (fun _ => tryMid 1)
          else none
        | none => none
      else none
    (tryFrom 2).orElse (fun _ => tryFrom 1)

/-- Matcher for `\bБР\b` (IGNORECASE). -/
def matchBRWord (prev : Option Char) (s : Str) : Option (Nat × Unit) :=
  match s with
  | c1 :: c2 :: _ =>
    if boundaryBefore prev && decide (pyToLower c1 = 'б') && decide (pyToLower c2 = 'р')
        && boundaryAfterAt s 2 then
      some (2, ())
    else none
  | _ => none

/-- One legal-citation term: a literal prefix plus a one-character class. -/
def matchLegalTerm (terms : List (Str × Str)) (s : Str) : Option Nat :=
  terms.firstM (fun t =>
    if startsWithCI t.1 s then
      match (pyDrop t.1.length s).head? with
      | some c => if t.2.contains (pyToLower c) then some (t.1.length + 1) else none
      | none => none
    else none)

/-- The tail `(?:\s*,\s*\d+)*` of a legal-citation number group;
returns (consumed length, digit runs relative to the given offset). -/
def legalNumTail : Nat → Str → Nat → Nat × List (Nat × Nat)
  | 0, _, _ => (0, [])
  | fuel + 1, s, off =>
    let sp1 := (s.takeWhile isSpaceChar).length
    match (pyDrop sp1 s).head? with
    | some c =>
      if c = ',' then
        let s2 := pyDrop (sp1 + 1) s
        let sp2 := (s2.takeWhile isSpaceChar).length
        let d := (pyDrop sp2 s2).takeWhile isDigitChar
        if d.isEmpty then (0, [])
        else
          let step := sp1 + 1 + sp2 + d.length
          let rest := legalNumTail fuel (pyDrop step s) (off + step)
          (step + rest.1, (off + sp1 + 1 + sp2, off + step) :: rest.2)
      else (0, [])
    | none => (0, [])

/-- Matcher for a legal-citation pattern
`(term)\s+(\d+(?:\s*,\s*\d+)*)` (IGNORECASE).
Payload: the digit runs, relative to the match start. -/
def matchLegal (terms : List (Str × Str)) (_prev : Option Char) (s : Str) :
    Option (Nat × List (Nat × Nat)) :=
  match matchLegalTerm terms s with
  | none => none
  | some tlen =>
    let afterT := pyDrop tlen s
    let sp := (afterT.takeWhile isSpaceChar).length
    if decide (0 < sp) then
      let afterSp := pyDrop sp afterT
      let d := afterSp.takeWhile isDigitChar
      if d.isEmpty then none
      else
        let g2 := tlen + sp
        let tail := legalNumTail (afterSp.length + 1) (pyDrop d.length afterSp)
          (g2 + d.length)
        some (g2 + d.length + tail.1, (g2, g2 + d.length) :: tail.2)
    else none

/-- The four legal-citation term sets, in source order. -/
def LEGAL_TERMS : List (List (Str × Str)) :=
  [[(lit "стате", lit "йї"), (lit "стать", lit "іеюя")],
   [(lit "пункт", lit "уаиіеє")],
   [(lit "частин", lit "аиюіеє")],
   [(lit "розділ", lit "уаіеє")]]

/-- Letter tail loop of the complex БР group: repeated (slash-or-dash
then letters) chunks, class `А-Яа-яA-Za-z`. -/
def brComplexLoop2 : Nat → Str → Nat
  | 0, _ => 0
  | fuel + 1, s =>
    match s with
    | c :: rest =>
      if decide (c = '/') || decide (c = '-') then
        let d := rest.takeWhile isRuAsciiLetter
        if d.isEmpty then 0
        else 1 + d.length + brComplexLoop2 fuel (pyDrop d.length rest)
      else 0
    | [] => 0

def digitSlashLoop : Nat → Str → Nat
  | 0, _ => 0
  | fuel + 1, s =>
    match s with
    | c :: rest =>
      if decide (c = '/') || decide (c = '-') then
        let d := rest.takeWhile isDigitChar
        if d.isEmpty then 0
        else 1 + d.length + digitSlashLoop fuel (pyDrop d.length rest)
      else 0
    | [] => 0

def matchBrComplexGroup (s : Str) : Option Nat :=
  let d := s.takeWhile isDigitChar
  if d.isEmpty then none
  else
    let l1 := digitSlashLoop (s.length + 1) (pyDrop d.length s)
    let l2 := brComplexLoop2 (s.length + 1) (pyDrop (d.length + l1) s)
    some (d.length + l1 + l2)

/-- The number group after `№`: digits, repeated (slash-or-dash then
digits) chunks, then an optional letter tail with or without a leading
slash-or-dash. -/
def matchNumGroup (s : Str) : Option Nat :=
  let d := s.takeWhile isDigitChar
  if d.isEmpty then none
  else
    let l1 := digitSlashLoop (s.length + 1) (pyDrop d.length s)
    let s2 := pyDrop (d.length + l1) s
    let opt :=
      match s2 with
      | c :: rest =>
        if decide (c = '/') || decide (c = '-') then
          let ls := rest.takeWhile isRuAsciiLetter
          if ls.isEmpty then
            let ls2 := s2.takeWhile isRuAsciiLetter
            ls2.length
          else 1 + ls.length
        else (s2.takeWhile isRuAsciiLetter).length
      | [] => 0
    some (d.length + l1 + opt)

/-- `(дск|п|к)$` under IGNORECASE. -/
def hasBrSuffix (s : Str) : Bool :=
  let ls := pyLower s
  endsWith (lit "дск") ls || endsWith (lit "п") ls || endsWith (lit "к") ls

/-- `analyze_number_sign_context` (data_masking.py): classify the context
after a `№` at `pos` into complex БР number, suffixed number, slashed БР
number, letter-combined order number or plain order number. -/
def analyze_number_sign_context (text : Str) (pos : Nat) : Option SpanItem :=
  let after_text := pyTake 100 (pyDrop (pos + 1) text)
  let sp := (after_text.takeWhile isSpaceChar).length
  let afterSp := pyDrop sp after_text
  if startsWithCI (lit "бр") afterSp then
    let afterBR := pyDrop 2 afterSp
    let sep := match afterBR.head? with
      | some c => if decide (c = '-') || isSpaceChar c then 1 else 0
      | none => 0
    let g := pyDrop sep afterBR
    match matchBrComplexGroup g with
    | some glen =>
      let m0len := sp + 2 + sep + glen
      some ⟨lit "br_complex", pySlice pos (pos + 1 + m0len) text, pyTake glen g,
        pos, pos + 1 + m0len⟩
    | none => none
  else
    match matchNumGroup afterSp with
    | none => none
    | some glen =>
      let number_text := pyTake glen afterSp
      let m0len := sp + glen
      let full_text := pySlice pos (pos + 1 + m0len) text
      let stop := pos + 1 + m0len
      if hasBrSuffix number_text then
        if 2 ≤ countChar '/' number_text then
          some ⟨lit "br_with_slashes", full_text, number_text, pos, stop⟩
        else some ⟨lit "br_with_suffix", full_text, number_text, pos, stop⟩
      else if number_text.any isRuAsciiLetter then
        some ⟨lit "order_with_letters", full_text, number_text, pos, stop⟩
      else some ⟨lit "order_simple", full_text, number_text, pos, stop⟩

/-- `analyze_br_keyword` (data_masking.py): the context after a
standalone `БР` at `pos`. -/
def analyze_br_keyword (text : Str) (pos : Nat) : Option SpanItem :=
  let after_text := pyTake 100 (pyDrop (pos + 2) text)
  let sep := match after_text.head? with
    | some c => if decide (c = '-') || isSpaceChar c then 1 else 0
    | none => 0
  let g := pyDrop sep after_text
  let d := g.takeWhile isDigitChar
  if d.isEmpty then none
  else
    let l1 := digitSlashLoop (g.length + 1) (pyDrop d.length g)
    let afterNum := pyDrop (d.length + l1) g
    let suff :=
      if startsWithCI (lit "дск") afterNum then 3
      else if startsWithCI (lit "п") afterNum then 1
      else if startsWithCI (lit "к") afterNum then 1
      else 0
    let glen := d.length + l1 + suff
    let m0len := sep + glen
    some ⟨lit "br_standalone",
      pySlice pos (pos + 2) text ++ pyTake m0len after_text,
      pyTake glen g, pos, pos + 2 + m0len⟩

/-- Register a candidate span: drop it when it conflicts with a skip span
(containment when `skipContain`, overlap otherwise, matching the per-pass
conditions in the source) or overlaps an already-registered candidate. -/
def registerSpan (skips : List SpanItem) (skipContain : Bool)
    (acc : List SpanItem) (it : SpanItem) : List SpanItem :=
  let skip :=
    (if skipContain then
      skips.any (fun sk => decide (sk.start ≤ it.start) && decide (it.stop ≤ sk.stop))
     else
      skips.any (fun sk => decide (it.start < sk.stop) && decide (sk.start < it.stop)))
    || acc.any (fun m => decide (it.start < m.stop) && decide (m.start < it.stop))
  if skip then acc else acc ++ [it]

/-- All positions of the character `№`. -/
def numSignPositions (text : Str) : List Nat :=
  (reFinditer (fun _ s =>
    match s.head? with
    | some c => if c = '№' then some (1, ()) else none
    | none => none) (text.length + 1) none text 0).map (fun m => m.1)

/-- The span-detection phase of `mask_text_context_aware`: ordered passes
building `items_to_skip` and `items_to_mask` with the conflict conditions
of the source (`№` contexts are registered without any conflict check). -/
def detect_spans (text : Str) : List SpanItem × List SpanItem :=
  let items_to_skip : List SpanItem :=
    (if !MASK_DATES then
      (reFinditer matchUkrDate (text.length + 1) none text 0).map
        (fun m => ⟨lit "date", pySlice m.1 m.2.1 text, pySlice m.1 m.2.1 text,
          m.1, m.2.1⟩)
     else [])
    ++ LEGAL_TERMS.foldl (fun acc terms =>
        (reFinditer (matchLegal terms) (text.length + 1) none text 0).foldl
          (fun acc2 m =>
            acc2 ++ m.2.2.map (fun run =>
              ⟨lit "legal_number", pySlice (m.1 + run.1) (m.1 + run.2) text,
                pySlice (m.1 + run.1) (m.1 + run.2) text,
                m.1 + run.1, m.1 + run.2⟩)) acc) []
  let afterNum : List SpanItem :=
    if MASK_ORDERS || MASK_BR_NUMBERS then
      (numSignPositions text).foldl (fun acc p =>
        match analyze_number_sign_context text p with
        | some it => acc ++ [it]
        | none => acc) []
    else []
  let afterBR : List SpanItem :=
    if MASK_BR_NUMBERS then
      (reFinditer matchBRWord (text.length + 1) none text 0).foldl
        (fun acc m =>
          match analyze_br_keyword text m.1 with
          | some it => registerSpan items_to_skip false acc it
          | none => acc) afterNum
    else afterNum
  let afterIpn :=
    if MASK_IPN then
      (reFinditer (matchDigitRun 10) (text.length + 1) none text 0).foldl
        (fun acc m => registerSpan items_to_skip true acc
          ⟨lit "ipn", m.2.2, m.2.2, m.1, m.2.1⟩) afterBR
    else afterBR
  let afterPassport :=
    if MASK_PASSPORT then
      (reFinditer (matchDigitRun 9) (text.length + 1) none text 0).foldl
        (fun acc m => registerSpan items_to_skip true acc
          ⟨lit "passport_id", m.2.2, m.2.2, m.1, m.2.1⟩) afterIpn
    else afterIpn
  let afterMilId :=
    if MASK_MILITARY_ID then
      (reFinditer matchMilitaryId (text.length + 1) none text 0).foldl
        (fun acc m => registerSpan items_to_skip true acc
          ⟨lit "military_id", m.2.2, m.2.2, m.1, m.2.1⟩) afterPassport
    else afterPassport
  let afterUnit :=
    if MASK_UNITS then
      (reFinditer matchMilitaryUnit (text.length + 1) none text 0).foldl
        (fun acc m => registerSpan items_to_skip true acc
          ⟨lit "military_unit", m.2.2, m.2.2, m.1, m.2.1⟩) afterMilId
    else afterMilId
  let afterBrigade :=
    if MASK_BRIGADES then
      (reFinditer matchBrigade (text.length + 1) none text 0).foldl
        (fun acc m => registerSpan items_to_skip true acc
          ⟨lit "brigade_number", pySlice m.1 m.2.1 text, m.2.2, m.1, m.2.1⟩)
        afterUnit
    else afterUnit
  let afterDate :=
    if MASK_DATES then
      (reFinditer matchDateRe (text.length + 1) none text 0).foldl
        (fun acc m =>
          if is_valid_date m.2.2.1 m.2.2.2.1 m.2.2.2.2 then
            registerSpan items_to_skip true acc
              ⟨lit "date", pySlice m.1 m.2.1 text, pySlice m.1 m.2.1 text,
                m.1, m.2.1⟩
          else acc) afterBrigade
    else afterBrigade
  (items_to_skip, afterDate)


/-- The span types registered through `registerSpan`, i.e. with a
conflict check against earlier candidates (every pass except the `№`
contexts pass, which appends its items without any check). -/
def CHECKED_TYPES : List Str :=
  [lit "br_standalone", lit "ipn", lit "passport_id", lit "military_id",
   lit "military_unit", lit "brigade_number", lit "date"]

/-- The span types whose check against skip spans is containment of the
match inside the skip span (the identifier, brigade and date passes);
the standalone-БР pass instead checks true overlap. -/
def CONTAIN_TYPES : List Str :=
  [lit "ipn", lit "passport_id", lit "military_id", lit "military_unit",
   lit "brigade_number", lit "date"]

/-- The conflict-resolution invariant actually maintained by the
detection passes: a candidate from a checked pass overlaps no
earlier-registered candidate; a containment-checked candidate is
contained in no skip span; a standalone-БР candidate overlaps no skip
span. -/
def DetectInv (skips l : List SpanItem) : Prop :=
  List.Pairwise (fun a b => b.ty ∈ CHECKED_TYPES →
    ¬ (b.start < a.stop ∧ a.start < b.stop)) l
  ∧ (∀ it ∈ l, it.ty ∈ CONTAIN_TYPES →
      ∀ sk ∈ skips, ¬ (sk.start ≤ it.start ∧ it.stop ≤ sk.stop))
  ∧ (∀ it ∈ l, it.ty = lit "br_standalone" →
      ∀ sk ∈ skips, ¬ (it.start < sk.stop ∧ sk.start < it.stop))


/-! ## Line heuristics and hybrid-line parsing (`data_masking.py`) -/

/-- Collapse every whitespace run to a single space
(`re.sub(r'\s+', ' ', s)`). -/
def collapseWsGo : Nat → Str → Str
  | 0, _ => []
  | fuel + 1, s =>
    match s with
    | [] => []
    | c :: rest =>
      if isSpaceChar c then ' ' :: collapseWsGo fuel ((c :: rest).dropWhile isSpaceChar)
      else c :: collapseWsGo fuel rest

def collapseWs (s : Str) : Str := collapseWsGo (s.length + 1) s

/-- Decimal digits of a natural number (Python `str(n)`). -/
def natToStrGo : Nat → Nat → Str
  | 0, _ => []
  | fuel + 1, n =>
    if n < 10 then [digitChar n] else natToStrGo fuel (n / 10) ++ [digitChar (n % 10)]

def natToStr (n : Nat) : Str := natToStrGo (n + 1) n

/-- Two-digit zero padding (`strftime` `%d` / `%m`). -/
def pad2 (n : Nat) : Str := if n < 10 then '0' :: natToStr n else natToStr n

/-- The ASCII apostrophe (U+0027), which several `EXCLUDE_WORDS` contain. -/
def apChar : Char := Char.ofNat 39

/-- A word containing one ASCII apostrophe. -/
def wApos (a b : String) : Str := lit a ++ apChar :: lit b

/-- `EXCLUDE_WORDS` (data_masking.py), in source order (including the
duplicated "оголосити" and the garbled OCR entries). -/
def EXCLUDE_WORDS : List Str :=
  [lit "Дійсним", lit "дійсним", lit "Відповідно", lit "відповідно",
   lit "Згідно", lit "згідно",
   lit "Відповідальний", lit "відповідальний", lit "Командир",
   lit "командир", lit "командира",
   lit "Начальник", lit "начальник", lit "Заступник", lit "заступник",
   lit "Виконуючий", lit "виконуючий", wApos "обов" "язки", wApos "обав" "язки",
   lit "доповідаю", lit "прошу", lit "наказую", lit "призначити", lit "звільнити",
   lit "проявив", lit "виконав", lit "оголосити", lit "оголосити",
   lit "про", lit "по", lit "від", lit "до", lit "за", lit "суті", lit "мною",
   lit "Вас", lit "вас",
   wApos "зв" "язку", lit "порушення", lit "вимог",
   lit "Збройних", lit "збройних", lit "України", lit "україни",
   lit "служби", lit "Служби",
   lit "військової", lit "Військової", lit "частини", lit "Частини",
   lit "взводу", lit "Взводу",
   lit "батальйону", lit "Батальйону", lit "роти", lit "Роти",
   lit "Статуту", lit "статуту", lit "Указу", lit "указу", lit "Закону", lit "закону",
   lit "Кодексу", lit "кодексу", lit "Положення", lit "положення",
   lit "Інструкції", lit "інструкції", lit "наказу", lit "Наказу",
   lit "наказом", lit "Наказом",
   lit "рапорту", lit "Рапорту", lit "статей", lit "Статей",
   lit "пункту", lit "Пункту",
   lit "неналежііе", lit "инутрішньої", lit "радіовіzUділення",
   lit "с~гатуту", lit "року", lit "Року", lit "числа", lit "місяця",
   lit "один", lit "два", lit "три", lit "чотири", wApos "п" "ять"]

/-- `normalize_string` (data_masking.py): lowercase, turn NBSP, dot and
semicolon into spaces (the `replace("\x27", "\x27")` of the source is an
identity), collapse whitespace, strip. -/
def normalize_string (s : Str) : Str :=
  if s.isEmpty then []
  else
    let s2 := (pyLower s).map (fun c =>
      if c = Char.ofNat 0xa0 then ' '
      else if c = '.' then ' '
      else if c = ';' then ' ' else c)
    pyStrip (collapseWs s2)

/-- `normalize_identifier` (data_masking.py): uppercase and delete
whitespace, dashes and dots. -/
def normalize_identifier (identifier : Str) : Str :=
  if identifier.isEmpty then []
  else pyStrip ((pyUpper identifier).filter
    (fun c => !(isSpaceChar c || c = '-' || c = '.')))

/-- `is_pib_anchor` (data_masking.py). -/
def is_pib_anchor (word : Str) : Bool :=
  if startsWith (lit "___") word && endsWith (lit "___") word then false
  else if word.isEmpty || decide (word.length ≤ 2) then false
  else if (EXCLUDE_WORDS.map pyLower).contains (pyLower word) then false
  else if (RANKS_LIST.map pyLower).contains (pyLower word) then false
  else isUpperChar (word.headD ' ')

/-- `is_likely_surname_by_case` (data_masking.py): all-caps after removing
dashes and apostrophes, with at least three remaining characters. -/
def is_likely_surname_by_case (word : Str) : Bool :=
  if startsWith (lit "___") word && endsWith (lit "___") word then false
  else if word.isEmpty || decide (word.length < 3) then false
  else
    let letters_only := word.filter (fun c => !(c = '-' || c = apChar))
    pyIsUpper letters_only && decide (3 ≤ letters_only.length)

def NAME_PREPOSITIONS : List Str :=
  [lit "по", lit "про", lit "від", lit "до", lit "за", lit "на", lit "у",
   lit "в", lit "з", lit "із"]

/-- The declension endings checked by `looks_like_name`, in source order
(with the duplicated "ою"). -/
def DECLENSION_ENDINGS : List Str :=
  [lit "ом", lit "ем", lit "єм", lit "ім", lit "ою", lit "єю", lit "ою",
   lit "у", lit "ю", lit "а", lit "я", lit "і", lit "ї"]

/-- `looks_like_name` (data_masking.py). -/
def looks_like_name (word : Str) : Bool :=
  if startsWith (lit "___") word && endsWith (lit "___") word then false
  else
    let cw := pyRstripChars (lit ",.!?;:") word
    if decide (cw.length < 3) then false
    else if EXCLUDE_WORDS.contains cw
        || (EXCLUDE_WORDS.map pyLower).contains (pyLower cw) then false
    else if cw.any isDigitChar then false
    else if RANKS_LIST.contains (pyLower cw) then false
    else if NAME_PREPOSITIONS.contains (pyLower cw) then false
    else if isUpperChar (cw.headD ' ') && pyIsLower (pyDrop 1 cw) then true
    else if pyIsUpper cw then true
    else DECLENSION_ENDINGS.any (fun ending =>
      decide (ending.length + 2 < cw.length) &&
      (pyIsUpper (pyDropLast ending.length cw)
       && pyIsLower (pyTakeLast ending.length cw)
       && decide (pyTakeLast ending.length cw = ending)))

/-- Matcher for `\d{1,2}[.!]\d{1,2}\.\d{4}` (the date shapes deleted
by `clean_line_before_parsing`), greedy with backtracking. -/
def matchCleanDate (_prev : Option Char) (s : Str) : Option (Nat × Unit) :=
  let tryD := fun (dl : Nat) =>
    let d := pyTake dl s
    if decide (d.length = dl) && d.all isDigitChar then
      match (pyDrop dl s).head? with
      | some c =>
        if c = '.' || c = '!' then
          let s2 := pyDrop (dl + 1) s
          let tryM := fun (ml : Nat) =>
            let m := pyTake ml s2
            if decide (m.length = ml) && m.all isDigitChar then
              match (pyDrop ml s2).head? with
              | some c2 =>
                if c2 = '.' then
                  let y := pyTake 4 (pyDrop (ml + 1) s2)
                  if decide (y.length = 4) && y.all isDigitChar then
                    some (dl + 1 + ml + 1 + 4, ())
                  else none
                else none
              | none => none
            else none
          (tryM 2).orElse (fun _ => tryM 1)
        else none
      | none => none
    else none
  (tryD 2).orElse (fun _ => tryD 1)

/-- Matcher for `\s+року\s+` (IGNORECASE). -/
def matchRoku (_prev : Option Char) (s : Str) : Option (Nat × Unit) :=
  let sp1 := (s.takeWhile isSpaceChar).length
  if decide (0 < sp1) then
    let s2 := pyDrop sp1 s
    if startsWithCI (lit "року") s2 then
      let sp2 := ((pyDrop 4 s2).takeWhile isSpaceChar).length
      if decide (0 < sp2) then some (sp1 + 4 + sp2, ()) else none
    else none
  else none

/-- `re.sub`: replace every match (given with its original-text span) by
a function of the matched slice, splicing from the right. -/
def reSubF (ms : List (Nat × Nat)) (f : Str → Str) (text : Str) : Str :=
  ms.reverse.foldl
    (fun t m => pyTake m.1 t ++ f (pySlice m.1 m.2 text) ++ pyDrop m.2 t) text

/-- `clean_line_before_parsing` (data_masking.py). -/
def clean_line_before_parsing (line : Str) : Str :=
  let l1 := reSubF ((reFinditer matchCleanDate (line.length + 1) none line 0).map
    (fun m => (m.1, m.2.1))) (fun _ => []) line
  let l2 := reSubF ((reFinditer matchRoku (l1.length + 1) none l1 0).map
    (fun m => (m.1, m.2.1))) (fun _ => lit " ") l1
  pyStrip (collapseWs l2)

/-- The letter class of `extract_identifier_from_line`
(`A-Za-zА-Яа-яІіЇїЄєΐё`). -/
def isIdWordLetter (c : Char) : Bool :=
  isAsciiUpperChar c || isAsciiLowerChar c || between 0x410 0x44F c.toNat
  || c = Char.ofNat 0x406 || c = Char.ofNat 0x456
  || c = Char.ofNat 0x407 || c = Char.ofNat 0x457
  || c = Char.ofNat 0x404 || c = Char.ofNat 0x454
  || c = Char.ofNat 0x390 || c = Char.ofNat 0x451

/-- `extract_identifier_from_line` (data_masking.py): the last word, when
it matches `^[letters]*\d+[\w\-]*$`, normalized. -/
def extract_identifier_from_line (line : Str) : Option Str :=
  match (pySplitWs (pyStrip line)).getLast? with
  | none => none
  | some last_word =>
    let a := last_word.takeWhile isIdWordLetter
    let afterA := pyDrop a.length last_word
    let d := afterA.takeWhile isDigitChar
    if decide (0 < d.length)
        && (pyDrop d.length afterA).all (fun c => isWordChar c || c = '-') then
      some (normalize_identifier last_word)
    else none

/-- Matcher for
`\b\d{10}\b|\b\d{9}\b|[А-ЯA-Z]{2}\s*-?\s*\d{6}\b`
(the identifier shapes looked for by `looks_like_pib_line`). -/
def matchIdTriple (prev : Option Char) (s : Str) : Option (Nat × Unit) :=
  match matchDigitRun 10 prev s with
  | some (len, _) => some (len, ())
  | none =>
    match matchDigitRun 9 prev s with
    | some (len, _) => some (len, ())
    | none =>
      match s with
      | c1 :: c2 :: rest =>
        if isUnitLetter c1 && isUnitLetter c2 then
          let sp1 := (rest.takeWhile isSpaceChar).length
          let afterSp1 := pyDrop sp1 rest
          let dash := match afterSp1.head? with
            | some c => if c = '-' then 1 else 0
            | none => 0
          let afterDash := pyDrop dash afterSp1
          let sp2 := (afterDash.takeWhile isSpaceChar).length
          let d := (pyDrop sp2 afterDash).takeWhile isDigitChar
          let total := 2 + sp1 + dash + sp2 + 6
          if decide (6 ≤ d.length) && boundaryAfterAt s total then some (total, ())
          else none
        else none
      | _ => none

/-- `re.search` as emptiness of the match list. -/
def reSearchB (m : Option Char → Str → Option (Nat × Unit)) (text : Str) : Bool :=
  !(reFinditer m (text.length + 1) none text 0).isEmpty

/-- `^[А-ЯҐЄІЇA-Z\s]+:\s*$` (an all-caps header line ending in a
colon). -/
def isColonHeader (line : Str) : Bool :=
  let cls := fun c => between 0x410 0x42F c.toNat || c = Char.ofNat 0x490
    || c = Char.ofNat 0x404 || c = Char.ofNat 0x406 || c = Char.ofNat 0x407
    || isAsciiUpperChar c || isSpaceChar c
  let pre := line.takeWhile cls
  decide (0 < pre.length) &&
    (match (pyDrop pre.length line).head? with
     | some c => c = ':' && (pyDrop (pre.length + 1) line).all isSpaceChar
     | none => false)

/-- `looks_like_pib_line` (data_masking.py). -/
def looks_like_pib_line (line : Str) : Bool :=
  if line.isEmpty || decide ((pyStrip line).length < 10) then false
  else
    let line_clean := pyStrip line
    let line_lower := pyLower line_clean
    if startsWith (lit "===") line_clean || startsWith (lit "---") line_clean
        || isColonHeader line_clean then false
    else
      let normalized := normalize_string line_clean
      let has_rank := RANKS_LIST.any (fun r => pyContains r normalized)
      if !has_rank && pyIsUpper line_clean
          && decide (3 ≤ (pySplitWs line_clean).length)
          && !reSearchB matchIdTriple line_clean then false
      else if [lit "відповідно", lit "згідно", lit "на підставі"].any
          (fun p => startsWith p line_lower) then false
      else if decide (line_clean.length < 100)
          && [lit "статуту", lit "кодексу", lit "закону", lit "указу"].any
            (fun t => pyContains t line_lower) then false
      else if has_rank then true
      else
        let seqOut := (pySplitWs line_clean).foldl
          (fun (acc : Nat × Nat) word =>
            let cw := pyStripChars (lit ",.!?;:") word
            if !cw.isEmpty && decide (2 < cw.length)
                && isUpperChar (cw.headD ' ') && looks_like_name cw then
              (acc.1 + 1, max acc.2 (acc.1 + 1))
            else (0, acc.2))
          (0, 0)
        if decide (2 ≤ seqOut.2) then true
        else reSearchB matchIdTriple line_clean

/-- Two consecutive digits anywhere (`re.search(r'\d{2,}', s)`). -/
def hasDigitPair : Str → Bool
  | [] => false
  | [_] => false
  | a :: b :: rest => (isDigitChar a && isDigitChar b) || hasDigitPair (b :: rest)

/-- `re.sub(r'^\d+\.\s*', '', rank)`. -/
def stripLeadingNumDot (rank : Str) : Str :=
  let d := rank.takeWhile isDigitChar
  if !d.isEmpty && (pyDrop d.length rank).head? = some '.' then
    (pyDrop (d.length + 1) rank).dropWhile isSpaceChar
  else rank

/-- One entry of `rank_matches`:
(rank_index, rank_form, words_before, word_count_with_additional). -/
abbrev RankMatch := Nat × Str × Nat × Nat

/-- `parse_hybrid_line` (data_masking.py).  Python `None` and the empty
string are both falsy at every use site of the three results; both are
represented by `[]`. -/
def parse_hybrid_line (line0 : Str) : Str × Str × Str :=
  let line1 := pyStrip line0
  if line1.isEmpty then ([], [], [])
  else
    let line2 := clean_line_before_parsing line1
    let identifier := (extract_identifier_from_line line2).getD []
    let line3 := if !identifier.isEmpty
      then pyJoinSpace (pySplitWs line2).dropLast else line2
    let parts0 := pySplitWs (pyStrip line3)
    if parts0.isEmpty then ([], [], identifier)
    else
      let parts := if pyIsDigit (parts0.headD []) then parts0.tail else parts0
      if parts.isEmpty then ([], [], identifier)
      else
        let normalized_line := normalize_string line3
        let rank_matches : List RankMatch := ALL_RANK_FORMS.foldl
          (fun acc rank_form =>
            let rank_pattern := rank_form ++ [' ']
            match pyFind rank_pattern normalized_line with
            | none => acc
            | some rank_index =>
              let words_before :=
                (pySplitWs (pyTake rank_index normalized_line)).length
              let rank_word_count := (pySplitWs rank_form).length
              let words_after0 := pySplitWs
                (pyDrop (rank_index + rank_pattern.length) normalized_line)
              let s1 := if decide (2 ≤ words_after0.length)
                  && decide (pyJoinSpace (words_after0.take 2) = lit "медичної служби")
                then (2, words_after0.drop 2) else (0, words_after0)
              let s2 := if (match s1.2.head? with
                  | some w => decide (w = lit "юстиції")
                  | none => false)
                then (s1.1 + 1, s1.2.tail) else s1
              let add3 := match s2.2 with
                | w1 :: w2 :: _ =>
                  if [lit "у", lit "в", lit "на"].contains w1
                      && [lit "відставці", lit "запасі", lit "пенсії",
                          lit "резерві"].contains w2
                  then 2 else 0
                | _ => 0
              acc ++ [(rank_index, rank_form, words_before,
                rank_word_count + s2.1 + add3)]) []
        -- `rank_matches.sort(key=lambda x: x[0])` then `[0]`:
        -- the first entry with minimal index (stable sort keeps list order)
        let first_min : Option RankMatch := rank_matches.foldl
          (fun best m => match best with
            | none => some m
            | some b => if m.1 < b.1 then some m else best) none
        let rank_fields : Option (Nat × Str) := match first_min with
          | some m =>
            let rank_position := m.2.2.1
            let rank_word_count := m.2.2.2
            let rank_words := ((pySplitWs line3).drop rank_position).take rank_word_count
            let foc := if !rank_words.isEmpty then pyJoinSpace rank_words else m.2.1
            some (rank_position + rank_word_count, foc)
          | none => none
        let pib_start : Option Nat := match rank_fields with
          | some f => some f.1
          | none => parts.findIdx? is_pib_anchor
        match pib_start with
        | none => ([], [], identifier)
        | some psi =>
          -- with no rank found, rank_position is -1 and the slice branch
          -- yields the empty string
          let rank := match rank_fields with
            | some f => f.2
            | none => []
          let pib_words := ((parts.drop psi).take 3).takeWhile looks_like_name
          let pib := pyJoinSpace pib_words
          if !rank.isEmpty && decide (60 < rank.length) then ([], [], identifier)
          else if !rank.isEmpty && hasDigitPair (stripLeadingNumDot rank) then
            ([], [], identifier)
          else if !pib.isEmpty && decide ((pySplitWs pib).length < 2) then
            ([], [], identifier)
          else if !pib.isEmpty && [lit "статут", lit "наказ", lit "вимог",
              lit "порушення", lit "служби", lit "закон", lit "указ",
              lit "кодекс", lit "положення"].any
                (fun b => pyContains b (pyLower pib)) then
            ([], [], identifier)
          else if !rank.isEmpty && pib.isEmpty && identifier.isEmpty then
            ([], [], [])
          else (rank, pib, identifier)


/-! ## The remaining mask functions of `mask_text_context_aware` -/

/-- `mask_passport_id` (data_masking.py): keep the first three and the
last digit of a 9-digit string, redraw the middle five. -/
def mask_passport_id (original : Str) (st : MaskState) : Str × MaskState :=
  match alookup original ((alookup (lit "passport_id") st.dict.mappings).getD []) with
  | some r =>
    let out := add_to_mapping st.dict st.counters (lit "passport_id") original r.masked_as
    (out.1, { st with dict := out.2.1, counters := out.2.2 })
  | none =>
    if ¬ (original.length = 9 ∧ pyIsDigit original) then (original, st)
    else
      let rng0 := randSeed (get_deterministic_seed original)
      let (middle, rng1) := drawDigits 5 rng0
      let masked := pyTake 3 original ++ middle ++ pyTakeLast 1 original
      let out := add_to_mapping st.dict st.counters (lit "passport_id") original masked
      (out.1, { dict := out.2.1, counters := out.2.2, rng := rng1, faker := st.faker })

/-- The class `[A-ZА-Я]` (no IGNORECASE). -/
def milIdUpperLetter (c : Char) : Bool :=
  isAsciiUpperChar c || between 0x410 0x42F c.toNat

/-- `mask_military_id` (data_masking.py): normalize (uppercasing and
deleting separators), split into an optional two-letter group and six
digits, redraw the middle two digits, and re-attach the original's
separator. -/
def mask_military_id (original : Str) (st : MaskState) : Str × MaskState :=
  match alookup original ((alookup (lit "military_id") st.dict.mappings).getD []) with
  | some r =>
    let out := add_to_mapping st.dict st.counters (lit "military_id") original r.masked_as
    (out.1, { st with dict := out.2.1, counters := out.2.2 })
  | none =>
    let normalized := normalize_identifier original
    let parsed : Option (Str × Str) :=
      if decide (normalized.length = 8) && (pyTake 2 normalized).all milIdUpperLetter
          && (pyDrop 2 normalized).all isDigitChar then
        some (pyTake 2 normalized, pyDrop 2 normalized)
      else if decide (normalized.length = 6) && normalized.all isDigitChar then
        some ([], normalized)
      else none
    match parsed with
    | none => (original, st)
    | some (pfx, digits) =>
      let rng0 := randSeed (get_deterministic_seed original)
      let (middle, rng1) := drawDigits 2 rng0
      let masked_digits := pyTake 2 digits ++ middle ++ pyTakeLast 2 digits
      let masked :=
        if original.contains ' ' then
          if !pfx.isEmpty then pfx ++ ' ' :: masked_digits else masked_digits
        else if original.contains '-' then
          if !pfx.isEmpty then pfx ++ '-' :: masked_digits else masked_digits
        else pfx ++ masked_digits
      let out := add_to_mapping st.dict st.counters (lit "military_id") original masked
      (out.1, { dict := out.2.1, counters := out.2.2, rng := rng1, faker := st.faker })

/-- `mask_military_unit` (data_masking.py): keep the single uppercase
letter, redraw the four digits. -/
def mask_military_unit (original : Str) (st : MaskState) : Str × MaskState :=
  match alookup original ((alookup (lit "military_unit") st.dict.mappings).getD []) with
  | some r =>
    let out := add_to_mapping st.dict st.counters (lit "military_unit") original r.masked_as
    (out.1, { st with dict := out.2.1, counters := out.2.2 })
  | none =>
    if ¬ (original.length = 5 ∧ isUnitLetter (original.headD ' ') = true
        ∧ (pyDrop 1 original).all isDigitChar = true) then (original, st)
    else
      let rng0 := randSeed (get_deterministic_seed original)
      let (digits, rng1) := drawDigits 4 rng0
      let masked := pyTake 1 original ++ digits
      let out := add_to_mapping st.dict st.counters (lit "military_unit") original masked
      (out.1, { dict := out.2.1, counters := out.2.2, rng := rng1, faker := st.faker })

/-- `re.sub(r'\d', lambda _: str(random.randint(0, 9)), s)`: each digit
replaced by a fresh draw, left to right. -/
def subDigitsRand : Str → RandState → Str × RandState
  | [], rng => ([], rng)
  | c :: rest, rng =>
    if isDigitChar c then
      let (v, rng2) := randint 0 9 rng
      let (out, rng3) := subDigitsRand rest rng2
      (digitChar v :: out, rng3)
    else
      let (out, rng2) := subDigitsRand rest rng
      (c :: out, rng2)

/-- `mask_order_number` (data_masking.py). -/
def mask_order_number (original : Str) (st : MaskState) : Str × MaskState :=
  match alookup original ((alookup (lit "order_number") st.dict.mappings).getD []) with
  | some r =>
    let out := add_to_mapping st.dict st.counters (lit "order_number") original r.masked_as
    (out.1, { st with dict := out.2.1, counters := out.2.2 })
  | none =>
    let rng0 := randSeed (get_deterministic_seed original)
    let (masked, rng1) := subDigitsRand original rng0
    let out := add_to_mapping st.dict st.counters (lit "order_number") original masked
    (out.1, { dict := out.2.1, counters := out.2.2, rng := rng1, faker := st.faker })

/-- `mask_order_number_with_letters` (data_masking.py). -/
def mask_order_number_with_letters (original : Str) (st : MaskState) :
    Str × MaskState :=
  match alookup original
      ((alookup (lit "order_number_with_letters") st.dict.mappings).getD []) with
  | some r =>
    let out := add_to_mapping st.dict st.counters
      (lit "order_number_with_letters") original r.masked_as
    (out.1, { st with dict := out.2.1, counters := out.2.2 })
  | none =>
    let rng0 := randSeed (get_deterministic_seed original)
    let (masked, rng1) := subDigitsRand original rng0
    let out := add_to_mapping st.dict st.counters
      (lit "order_number_with_letters") original masked
    (out.1, { dict := out.2.1, counters := out.2.2, rng := rng1, faker := st.faker })

/-- `re.split(r'(/)', s)`: the pieces between slashes, each "/" kept as
its own element (empty pieces included). -/
def splitKeepSlashGo : Nat → Str → Str → List Str
  | 0, acc, _ => [acc.reverse]
  | fuel + 1, acc, s =>
    match s with
    | [] => [acc.reverse]
    | c :: rest =>
      if c = '/' then acc.reverse :: [ '/' ] :: splitKeepSlashGo fuel [] rest
      else splitKeepSlashGo fuel (c :: acc) rest

def splitKeepSlash (s : Str) : List Str := splitKeepSlashGo (s.length + 1) [] s

/-- `mask_br_number` (data_masking.py): keep the `№` head, trailing
`дск`/`п`/`к` suffix and slash structure; redraw every leading digit run
of each slash-separated piece. -/
def mask_br_number (original : Str) (st : MaskState) : Str × MaskState :=
  match alookup original ((alookup (lit "br_number") st.dict.mappings).getD []) with
  | some r =>
    let out := add_to_mapping st.dict st.counters (lit "br_number") original r.masked_as
    (out.1, { st with dict := out.2.1, counters := out.2.2 })
  | none =>
    let rng0 := randSeed (get_deterministic_seed original)
    let suffix := if endsWith (lit "дск") original then lit "дск"
      else if endsWith (lit "п") original then lit "п"
      else if endsWith (lit "к") original then lit "к" else []
    let pres :=
      if startsWith (lit "№") original then
        let sp := ((pyDrop 1 original).takeWhile isSpaceChar).length
        (pyTake (1 + sp) original, pyDrop (1 + sp) original)
      else ([], original)
    let number_part := if !suffix.isEmpty then pyDropLast suffix.length pres.2 else pres.2
    let folded := (splitKeepSlash number_part).foldl
      (fun (acc : List Str × RandState) part =>
        if part = ['/'] then (acc.1 ++ [part], acc.2)
        else if !part.isEmpty && isDigitChar (part.headD ' ') then
          let digits := part.takeWhile isDigitChar
          let (md, rng2) := drawDigits digits.length acc.2
          (acc.1 ++ [md ++ pyDrop digits.length part], rng2)
        else (acc.1 ++ [part], acc.2)) ([], rng0)
    let masked := pres.1 ++ folded.1.foldl (fun a p => a ++ p) [] ++ suffix
    let out := add_to_mapping st.dict st.counters (lit "br_number") original masked
    (out.1, { dict := out.2.1, counters := out.2.2, rng := folded.2, faker := st.faker })

/-- `mask_brigade_number` (data_masking.py): redraw the number from
1..160, keep the brigade name verbatim. -/
def mask_brigade_number (original : Str) (st : MaskState) : Str × MaskState :=
  match alookup original ((alookup (lit "brigade_number") st.dict.mappings).getD []) with
  | some r =>
    let out := add_to_mapping st.dict st.counters (lit "brigade_number") original r.masked_as
    (out.1, { st with dict := out.2.1, counters := out.2.2 })
  | none =>
    let d := original.takeWhile isDigitChar
    let afterD := pyDrop d.length original
    let sp := (afterD.takeWhile isSpaceChar).length
    let name := pyDrop sp afterD
    if d.isEmpty || decide (sp = 0) || name.isEmpty then (original, st)
    else
      let rng0 := randSeed (get_deterministic_seed original)
      let (v, rng1) := randint 1 160 rng0
      let masked := natToStr v ++ ' ' :: name
      let out := add_to_mapping st.dict st.counters (lit "brigade_number") original masked
      (out.1, { dict := out.2.1, counters := out.2.2, rng := rng1, faker := st.faker })

/-! ## Civil-calendar arithmetic for `mask_date`
(`datetime` + `timedelta`, via the standard days-from-civil bijection) -/

/-- Days since 0000-03-01 of a civil date (valid for `y ≥ 1`). -/
def toDays (y m d : Nat) : Nat :=
  let y2 := if m ≤ 2 then y - 1 else y
  let era := y2 / 400
  let yoe := y2 % 400
  let mp := (m + 9) % 12
  let doy := (153 * mp + 2) / 5 + d - 1
  era * 146097 + (yoe * 365 + yoe / 4 - yoe / 100 + doy)

/-- The civil date (y, m, d) of a day count. -/
def fromDays (z : Nat) : Nat × Nat × Nat :=
  let era := z / 146097
  let doe := z % 146097
  let yoe := (doe - doe / 1460 + doe / 36524 - doe / 146096) / 365
  let y := yoe + era * 400
  let doy := doe - (365 * yoe + yoe / 4 - yoe / 100)
  let mp := (5 * doy + 2) / 153
  let d := doy - (153 * mp + 2) / 5 + 1
  let m := if mp < 10 then mp + 3 else mp - 9
  (if m ≤ 2 then y + 1 else y, m, d)

/-- `mask_date` (data_masking.py): shift a valid DD.MM.YYYY date by a
drawn ±30 days, clamping escapes from 2015..2035 back into the range with
a second draw; format back with zero padding. -/
def mask_date (original : Str) (st : MaskState) : Str × MaskState :=
  match alookup original ((alookup (lit "date") st.dict.mappings).getD []) with
  | some r =>
    let out := add_to_mapping st.dict st.counters (lit "date") original r.masked_as
    (out.1, { st with dict := out.2.1, counters := out.2.2 })
  | none =>
    match original with
    | d1 :: d2 :: p1 :: m1 :: m2 :: p2 :: y1 :: y2 :: y3 :: y4 :: _ =>
      if isDigitChar d1 && isDigitChar d2 && decide (p1 = '.')
          && isDigitChar m1 && isDigitChar m2 && decide (p2 = '.')
          && isDigitChar y1 && isDigitChar y2 && isDigitChar y3 && isDigitChar y4 then
        let day := strToNat [d1, d2]
        let month := strToNat [m1, m2]
        let year := strToNat [y1, y2, y3, y4]
        if !is_valid_date day month year then (original, st)
        else
          let rng0 := randSeed (get_deterministic_seed original)
          let (shift, rng1) := randintI (-30) 30 rng0
          let c0 := fromDays ((((toDays year month day : Nat) : Int) + shift).toNat)
          let fin :=
            if c0.1 < 2015 then
              let (off, rng2) := randint 0 365 rng1
              (fromDays (toDays 2015 1 1 + off), rng2)
            else if 2035 < c0.1 then
              let (off, rng2) := randint 0 365 rng1
              (fromDays (toDays 2035 12 31 - off), rng2)
            else (c0, rng1)
          let masked := pad2 fin.1.2.2 ++ '.' :: pad2 fin.1.2.1 ++ '.' :: natToStr fin.1.1
          let out := add_to_mapping st.dict st.counters (lit "date") original masked
          (out.1, { dict := out.2.1, counters := out.2.2, rng := fin.2, faker := st.faker })
      else (original, st)
    | _ => (original, st)

/-! ## `normalize_broken_ranks` and the top-level masking pipeline -/

/-- Match one multi-word rank form where each space stands for `\s+`
(IGNORECASE); returns the consumed length. -/
def matchRankWsGo : Nat → Str → Str → Option Nat
  | 0, _, _ => none
  | fuel + 1, pat, s =>
    match pat with
    | [] => some 0
    | pc :: prest =>
      if pc = ' ' then
        let sp := (s.takeWhile isSpaceChar).length
        if decide (0 < sp) then
          match matchRankWsGo fuel prest (pyDrop sp s) with
          | some n => some (sp + n)
          | none => none
        else none
      else
        match s with
        | [] => none
        | c :: rest =>
          if pyToLower c = pyToLower pc then
            match matchRankWsGo fuel prest rest with
            | some n => some (n + 1)
            | none => none
          else none

/-- The multi-word rank forms, in `ALL_RANK_FORMS` order (the alternation
order of the combined pattern). -/
def MULTI_WORD_RANKS : List Str := ALL_RANK_FORMS.filter (fun r => r.contains ' ')

/-- Matcher for `(?i)\b(rank1|rank2|...)\b` with `\s+` standing for
each space of a form. -/
def matchBrokenRank (prev : Option Char) (s : Str) : Option (Nat × Unit) :=
  if boundaryBefore prev then
    match MULTI_WORD_RANKS.firstM (fun r =>
      match matchRankWsGo (r.length + s.length + 1) r s with
      | some len => if boundaryAfterAt s len then some len else none
      | none => none) with
    | some len => some (len, ())
    | none => none
  else none

/-- `normalize_broken_ranks` (data_masking.py): re-glue rank forms broken
across whitespace (including newlines) by collapsing the matched spans'
whitespace. -/
def normalize_broken_ranks (text : Str) : Str :=
  if MULTI_WORD_RANKS.isEmpty then text
  else
    reSubF ((reFinditer matchBrokenRank (text.length + 1) none text 0).map
      (fun m => (m.1, m.2.1))) collapseWs text

/-- Stable insertion keeping larger `start` first, for detected spans. -/
def insertSpanStartDesc (x : SpanItem) : List SpanItem → List SpanItem
  | [] => [x]
  | y :: ys => if y.start < x.start then x :: y :: ys else y :: insertSpanStartDesc x ys

def sortSpanStartDesc (l : List SpanItem) : List SpanItem :=
  l.foldl (fun acc x => insertSpanStartDesc x acc) []

/-- The substitution loop of `mask_text_context_aware`: items in
descending start order, each verified in place, dispatched on its type;
the identifier types splice only when the mask is non-empty. -/
def substituteItems : List SpanItem → Str → MaskState → Str × MaskState
  | [], text, st => (text, st)
  | item :: rest, text, st =>
    if pySlice item.start item.stop text ≠ item.full_text then
      substituteItems rest text st
    else if item.ty = lit "ipn" then
      let (m, st2) := mask_ipn item.number_part st
      substituteItems rest
        (if !m.isEmpty then pyTake item.start text ++ m ++ pyDrop item.stop text
         else text) st2
    else if item.ty = lit "passport_id" then
      let (m, st2) := mask_passport_id item.number_part st
      substituteItems rest
        (if !m.isEmpty then pyTake item.start text ++ m ++ pyDrop item.stop text
         else text) st2
    else if item.ty = lit "military_id" then
      let (m, st2) := mask_military_id item.number_part st
      substituteItems rest
        (if !m.isEmpty then pyTake item.start text ++ m ++ pyDrop item.stop text
         else text) st2
    else if item.ty = lit "military_unit" then
      let (m, st2) := mask_military_unit item.number_part st
      substituteItems rest
        (if !m.isEmpty then pyTake item.start text ++ m ++ pyDrop item.stop text
         else text) st2
    else if item.ty = lit "brigade_number" then
      let (m, st2) := mask_brigade_number item.full_text st
      substituteItems rest (pyTake item.start text ++ m ++ pyDrop item.stop text) st2
    else if item.ty = lit "date" then
      let (m, st2) := mask_date item.full_text st
      substituteItems rest (pyTake item.start text ++ m ++ pyDrop item.stop text) st2
    else if item.ty = lit "order_simple" then
      let (m, st2) := mask_order_number item.number_part st
      let new_full := pyReplaceFirst item.number_part m item.full_text
      substituteItems rest (pyTake item.start text ++ new_full ++ pyDrop item.stop text) st2
    else if item.ty = lit "order_with_letters" then
      let (m, st2) := mask_order_number_with_letters item.number_part st
      let new_full := pyReplaceFirst item.number_part m item.full_text
      substituteItems rest (pyTake item.start text ++ new_full ++ pyDrop item.stop text) st2
    else if item.ty = lit "br_complex" || item.ty = lit "br_with_slashes"
        || item.ty = lit "br_with_suffix" || item.ty = lit "br_standalone" then
      let (m, st2) := mask_br_number item.full_text st
      substituteItems rest (pyTake item.start text ++ m ++ pyDrop item.stop text) st2
    else substituteItems rest text st

/-- The per-line PIB masking loop of `mask_text_context_aware`
(`while iteration < 10`), threading the parse line and the output line. -/
def pibMaskLine : Nat → Str → Str → MaskState → Str × MaskState
  | 0, _, final_line, st => (final_line, st)
  | fuel + 1, cur, final_line, st =>
    let ph := parse_hybrid_line cur
    let rank := ph.1
    let pib := ph.2.1
    if pib.isEmpty then (final_line, st)
    else
      let step1 :=
        if !rank.isEmpty && MASK_RANKS then
          let mr := mask_rank_preserve_case rank st
          (pyReplaceFirst rank mr.1 final_line,
           pyReplaceFirst rank (lit "___RANK_MASKED___") cur, mr.2)
        else (final_line, cur, st)
      let final1 := step1.1
      let cur1 := step1.2.1
      let st1 := step1.2.2
      if MASK_NAMES then
        let parts := pySplitWs pib
        if decide (2 ≤ parts.length) then
          let p0 := parts.headD []
          let p1 := (parts.drop 1).headD []
          let patronymic := if decide (3 ≤ parts.length)
            then (parts.drop 2).headD [] else []
          -- Python passes gender_hint=detect(...) only when patronymic is
          -- truthy, and patronymic_hint=patronymic (""/None equivalent)
          let gh : Option Str := if !patronymic.isEmpty
            then some (detect_gender_by_patronymic patronymic) else none
          let phh : Option Str := if patronymic.isEmpty then none
            else some patronymic
          let res :=
            if is_likely_surname_by_case p1 then
              let ms := mask_surname p1 st1
              let mn := mask_name p0 gh phh ms.2
              (mn.1 ++ ' ' :: ms.1, mn.2)
            else
              let ms := mask_surname p0 st1
              let mn := mask_name p1 gh phh ms.2
              (ms.1 ++ ' ' :: mn.1, mn.2)
          let withPatr :=
            if !patronymic.isEmpty then
              let gender := detect_gender_by_patronymic patronymic
              let mp := mask_patronymic patronymic gender res.2
              (res.1 ++ ' ' :: mp.1, mp.2)
            else res
          pibMaskLine fuel (pyReplaceFirst pib (lit "___PIB_MASKED___") cur1)
            (pyReplaceFirst pib withPatr.1 final1) withPatr.2
        else pibMaskLine fuel cur1 final1 st1
      else pibMaskLine fuel cur1 final1 st1

/-- `mask_text_context_aware` (data_masking.py): normalize broken ranks,
detect spans, substitute them in descending start order, then run the
per-line PIB pass. -/
def mask_text_context_aware (text0 : Str) (st : MaskState) : Str × MaskState :=
  let text := normalize_broken_ranks text0
  let items := sortSpanStartDesc (detect_spans text).2
  let sub := substituteItems items text st
  let folded := (pySplitChar (Char.ofNat 10) sub.1).foldl
    (fun (acc : List Str × MaskState) line =>
      if !looks_like_pib_line line then (acc.1 ++ [line], acc.2)
      else
        let out := pibMaskLine 10 line line acc.2
        (acc.1 ++ [out.1], out.2)) ([], sub.2)
  (pyJoinChar (Char.ofNat 10) folded.1, folded.2)

/-- The categories pre-created by `main()` in `masking_dict["mappings"]`,
in insertion order. -/
def INIT_CATEGORIES : List Str :=
  [lit "ipn", lit "passport_id", lit "military_id", lit "surname", lit "name",
   lit "military_unit", lit "order_number", lit "order_number_with_letters",
   lit "br_number", lit "br_number_slash", lit "br_number_complex",
   lit "rank", lit "brigade_number", lit "date", lit "patronymic"]

def initMaskingDict : MaskingDict := ⟨INIT_CATEGORIES.map (fun c => (c, [])), []⟩

/-- The fresh run state of `main()`: empty store, empty counters, and the
modelled generator states. -/
def initMaskState : MaskState := ⟨initMaskingDict, [], ⟨0⟩, 0⟩

/-! ## The rank-aware unmask pass and `unmask_text_v2` (unmask_data.py) -/

/-- `is_real_mask` with the precomputed mask set (the only form the rank
pass uses): membership of the lowercased value. -/
def is_real_mask_fast (value : Str) (all_masked : List Str) : Bool :=
  all_masked.contains (pyLower value)

/-- `set.add` modelled as insertion-ordered deduplicating append. -/
def dedupAppend (l : List Str) (x : Str) : List Str :=
  if l.contains x then l else l ++ [x]

/-- A rank occurrence found in the text:
(start, end, matched text, found by the fallback scan). -/
abbrev RankFound := Nat × Nat × Str × Bool

/-- Step 1.A of `unmask_ranks_gender_aware`: whole-word case-insensitive
occurrences of every dictionary rank form. -/
def rankOccsA (text : Str) : List RankFound :=
  ALL_RANK_FORMS.foldl (fun acc rf =>
    acc ++ (find_all_occurrences text rf).map
      (fun o => (o.1, o.2, pySlice o.1 o.2 text, false))) []

/-- Step 1.B: fallback occurrences of the masked rank values, skipping
overlaps with anything already found. -/
def rankOccsB (text : Str) (all_masked : List Str) (found : List RankFound) :
    List RankFound :=
  all_masked.foldl (fun acc mr =>
    (find_all_occurrences text mr).foldl (fun acc2 o =>
      if acc2.any (fun f => decide (o.1 < f.2.1) && decide (f.1 < o.2)) then acc2
      else acc2 ++ [(o.1, o.2, pySlice o.1 o.2 text, true)]) acc) found

/-- Stable ascending insertion by start offset. -/
def insertRFStartAsc (x : RankFound) : List RankFound → List RankFound
  | [] => [x]
  | y :: ys => if x.1 < y.1 then x :: y :: ys else y :: insertRFStartAsc x ys

def sortRFStartAsc (l : List RankFound) : List RankFound :=
  l.foldl (fun acc x => insertRFStartAsc x acc) []

/-- A scheduled rank restoration: (start, end, replacement). -/
abbrev RankRepl := Nat × Nat × Str

def insertRRStartDesc (x : RankRepl) : List RankRepl → List RankRepl
  | [] => [x]
  | y :: ys => if y.1 < x.1 then x :: y :: ys else y :: insertRRStartDesc x ys

def sortRRStartDesc (l : List RankRepl) : List RankRepl :=
  l.foldl (fun acc x => insertRRStartDesc x acc) []

/-- Step 2 of `unmask_ranks_gender_aware` for one found rank: the simple
path (fallback finds) or the declension-aware path, threading the
replacement list, the instance counters and the statistics. -/
def unmaskRankStep (rank_instance_map : List (Str × List (Nat × Str)))
    (all_masked : List Str)
    (acc : List RankRepl × Counters × Nat × Nat) (found : RankFound) :
    List RankRepl × Counters × Nat × Nat :=
  let full_rank_text := found.2.2.1
  let ex := extract_base_rank full_rank_text
  let base_rank := ex.1
  let additional_words := ex.2
  if found.2.2.2 then
    let mrl := pyLower base_rank
    let (inst, counters2) := get_next_instance mrl acc.2.1
    match alookup mrl rank_instance_map with
    | some im =>
      match nlookup inst im with
      | some original_rank0 =>
        if !is_real_mask_fast mrl all_masked then
          (acc.1, counters2, acc.2.2.1, acc.2.2.2 + 1)
        else
          let original_rank := apply_original_case base_rank original_rank0
          let restored := if !additional_words.isEmpty
            then original_rank ++ ' ' :: additional_words else original_rank
          (acc.1 ++ [(found.1, found.2.1, restored)], counters2,
            acc.2.2.1 + 1, acc.2.2.2)
      | none => (acc.1, counters2, acc.2.2.1, acc.2.2.2 + 1)
    | none => (acc.1, counters2, acc.2.2.1, acc.2.2.2 + 1)
  else
    match get_rank_info base_rank with
    | none => acc
    | some info =>
      let base_masked_form := info.1
      let case := info.2.1
      let gender := info.2.2
      let (inst, counters2) := get_next_instance base_masked_form acc.2.1
      match alookup base_masked_form rank_instance_map with
      | some im =>
        match nlookup inst im with
        | some original_base_form =>
          if !is_real_mask_fast base_masked_form all_masked then
            (acc.1, counters2, acc.2.2.1, acc.2.2.2 + 1)
          else
            let reconstructed :=
              if gender = lit "female" then
                match alookup original_base_form RANK_FEMININE_MAP with
                | some base_female =>
                  match alookup base_female RANK_DECLENSIONS_FEMALE with
                  | some cases => (alookup case cases).getD base_female
                  | none => original_base_form
                | none => original_base_form
              else
                match alookup original_base_form RANK_DECLENSIONS with
                | some cases => (alookup case cases).getD original_base_form
                | none => original_base_form
            let rf := apply_original_case base_rank reconstructed
            let restored := if !additional_words.isEmpty
              then rf ++ ' ' :: additional_words else rf
            (acc.1 ++ [(found.1, found.2.1, restored)], counters2,
              acc.2.2.1 + 1, acc.2.2.2)
        | none => (acc.1, counters2, acc.2.2.1, acc.2.2.2 + 1)
      | none => (acc.1, counters2, acc.2.2.1, acc.2.2.2 + 1)

/-- `unmask_ranks_gender_aware` (unmask_data.py). -/
def unmask_ranks_gender_aware (masked_text : Str)
    (mappings : List (Str × CatMap)) : Str × Nat × Nat :=
  let rank_map := (alookup (lit "rank") mappings).getD []
  let rank_instance_map := build_instance_map [(lit "rank", rank_map)]
  let all_masked_ranks := rank_map.foldl
    (fun acc kv => dedupAppend acc (pyLower kv.2.masked_as)) []
  let foundAll := sortRFStartAsc
    (rankOccsB masked_text all_masked_ranks (rankOccsA masked_text))
  let processed := foundAll.foldl (unmaskRankStep rank_instance_map all_masked_ranks)
    ([], [], 0, 0)
  let sorted := sortRRStartDesc processed.1
  (sorted.foldl (fun t r => pyTake r.1 t ++ r.2.2 ++ pyDrop r.2.1 t) masked_text,
    processed.2.2)

/-- `unmask_text_v2` (unmask_data.py): for v2.1 maps, ranks first, then
everything else, summing the statistics; otherwise only the generic
pass. -/
def unmask_text_v2 (masked_text : Str) (mappings : List (Str × CatMap))
    (map_version : Str) : Str × Nat × Nat :=
  if map_version = lit "v2.1" then
    let r := unmask_ranks_gender_aware masked_text mappings
    let o := unmask_other_data r.1 mappings
    (o.1, r.2.1 + o.2.1, r.2.2 + o.2.2)
  else unmask_other_data masked_text mappings

/-! # Theorems -/

/-- Helper: `aset` binds the given key to the given value. -/
theorem alookup_aset_self (k : Str) (v : α) (l : List (Str × α)) :
    alookup k (aset k v l) = some v := by
  induction l with
  | nil => simp [aset, alookup]
  | cons hd tl ih =>
    obtain ⟨k0, v0⟩ := hd
    by_cases h : k0 = k
    · simp [aset, h, alookup]
    · simp [aset, h, alookup, ih]

/-- Helper: `aset` leaves every other key alone. -/
theorem alookup_aset_other (k k2 : Str) (v : α) (l : List (Str × α)) (hne : k2 ≠ k) :
    alookup k2 (aset k v l) = alookup k2 l := by
  induction l with
  | nil =>
    simp only [aset, alookup]
    rw [if_neg (fun h => hne h.symm)]
  | cons hd tl ih =>
    obtain ⟨k0, v0⟩ := hd
    by_cases h : k0 = k
    · subst h
      simp only [aset, if_pos rfl, alookup]
      rw [if_neg (fun h => hne h.symm), if_neg (fun h => hne h.symm)]
    · by_cases h2 : k0 = k2
      · subst h2
        simp [aset, h, alookup]
      · simp [aset, h, alookup, h2, ih]

/-- C4 (invariants of the shared instance counters).
Every call to `add_to_mapping` — any category, any original, first
encounter or repeat — increments the counter of the *resulting* masked
value by exactly one, appends exactly that counter value to the record's
instance list, and leaves every other counter unchanged; hence counters
only grow and are never reset, and the counter is keyed by the masked
value alone, shared across distinct originals colliding onto it. -/
theorem C4_instance_counter_invariants
    (d : MaskingDict) (counters : Counters) (category original masked : Str)
    (catMap : CatMap) (m : Str) (d2 : MaskingDict) (counters2 : Counters)
    (hcat : alookup category d.mappings = some catMap)
    (hrun : add_to_mapping d counters category original masked = (m, d2, counters2)) :
    alookup m counters2 = some ((alookup m counters).getD 0 + 1)
    ∧ (∀ k, k ≠ m → alookup k counters2 = alookup k counters)
    ∧ (∀ k, (alookup k counters).getD 0 ≤ (alookup k counters2).getD 0)
    ∧ (∃ oldInst : List Nat,
        alookup original ((alookup category d2.mappings).getD []) =
          some ⟨m, oldInst ++ [(alookup m counters).getD 0 + 1]⟩
        ∧ ((alookup original catMap = none ∧ oldInst = [])
           ∨ (∃ r, alookup original catMap = some r ∧ oldInst = r.instances
               ∧ m = r.masked_as))) := by
  cases hrec : alookup original catMap with
  | none =>
    simp only [add_to_mapping, hcat, Option.getD_some, hrec, get_next_instance,
      Prod.mk.injEq] at hrun
    obtain ⟨rfl, rfl, rfl⟩ := hrun
    refine ⟨alookup_aset_self _ _ _, ?_, ?_, ?_⟩
    · intro k hk
      exact alookup_aset_other _ _ _ _ hk
    · intro k
      by_cases hk : k = masked
      · subst hk
        rw [alookup_aset_self]
        simp
      · rw [alookup_aset_other _ _ _ _ hk]
    · refine ⟨[], ?_, Or.inl ⟨rfl, rfl⟩⟩
      rw [alookup_aset_self]
      simp only [Option.getD_some, List.nil_append]
      exact alookup_aset_self _ _ _
  | some r =>
    simp only [add_to_mapping, hcat, Option.getD_some, hrec, get_next_instance,
      Prod.mk.injEq] at hrun
    obtain ⟨rfl, rfl, rfl⟩ := hrun
    refine ⟨alookup_aset_self _ _ _, ?_, ?_, ?_⟩
    · intro k hk
      exact alookup_aset_other _ _ _ _ hk
    · intro k
      by_cases hk : k = r.masked_as
      · subst hk
        rw [alookup_aset_self]
        simp
      · rw [alookup_aset_other _ _ _ _ hk]
    · refine ⟨r.instances, ?_, Or.inr ⟨r, rfl, rfl, rfl⟩⟩
      rw [alookup_aset_self]
      simp only [Option.getD_some]
      exact alookup_aset_self _ _ _

/-- Witness for C4 at a concrete store. -/
theorem C4_instance_counter_invariants_witness :
    alookup (add_to_mapping ⟨[(lit "ipn", [])], []⟩ [] (lit "ipn") (lit "123") (lit "456")).1
      (add_to_mapping ⟨[(lit "ipn", [])], []⟩ [] (lit "ipn") (lit "123") (lit "456")).2.2
      = some 1 := by
  have h := C4_instance_counter_invariants ⟨[(lit "ipn", [])], []⟩ []
    (lit "ipn") (lit "123") (lit "456") []
    (add_to_mapping ⟨[(lit "ipn", [])], []⟩ [] (lit "ipn") (lit "123") (lit "456")).1
    (add_to_mapping ⟨[(lit "ipn", [])], []⟩ [] (lit "ipn") (lit "123") (lit "456")).2.1
    (add_to_mapping ⟨[(lit "ipn", [])], []⟩ [] (lit "ipn") (lit "123") (lit "456")).2.2
    (by decide) rfl
  rw [h.1]
  decide

/-- C5 (behaviour of `record(category, original, masked)`).
If `original` is already recorded for `category`, the supplied `masked`
argument is ignored: the stored `masked_as` is returned and the category's
uniqueness statistic is unchanged.  If `original` is new, a record with
`masked_as = masked` is created and the statistic grows by exactly one.
In both cases the returned value is the stored record's `masked_as`. -/
theorem C5_add_to_mapping_record
    (d : MaskingDict) (counters : Counters) (category original masked : Str)
    (catMap : CatMap) (m : Str) (d2 : MaskingDict) (counters2 : Counters)
    (hcat : alookup category d.mappings = some catMap)
    (hrun : add_to_mapping d counters category original masked = (m, d2, counters2)) :
    ((∀ r, alookup original catMap = some r →
        m = r.masked_as ∧ d2.statistics = d.statistics)
    ∧ (alookup original catMap = none →
        m = masked
        ∧ alookup category d2.statistics =
            some ((alookup category d.statistics).getD 0 + 1)
        ∧ (∀ k, k ≠ category → alookup k d2.statistics = alookup k d.statistics))
    ∧ ∃ r2, alookup original ((alookup category d2.mappings).getD []) = some r2
        ∧ r2.masked_as = m) := by
  cases hrec : alookup original catMap with
  | none =>
    simp only [add_to_mapping, hcat, Option.getD_some, hrec, get_next_instance,
      Prod.mk.injEq] at hrun
    obtain ⟨rfl, rfl, rfl⟩ := hrun
    refine ⟨?_, ?_, ?_⟩
    · intro r hr
      exact absurd hr (by simp)
    · intro _
      refine ⟨rfl, alookup_aset_self _ _ _, ?_⟩
      intro k hk
      exact alookup_aset_other _ _ _ _ hk
    · refine ⟨⟨masked, [(alookup masked counters).getD 0 + 1]⟩, ?_, rfl⟩
      rw [alookup_aset_self]
      simp only [Option.getD_some]
      exact alookup_aset_self _ _ _
  | some r =>
    simp only [add_to_mapping, hcat, Option.getD_some, hrec, get_next_instance,
      Prod.mk.injEq] at hrun
    obtain ⟨rfl, rfl, rfl⟩ := hrun
    refine ⟨?_, ?_, ?_⟩
    · intro r2 hr2
      have : r2 = r := by injection hr2 with h; exact h.symm
      subst this
      exact ⟨rfl, rfl⟩
    · intro hnone
      exact absurd hnone (by simp)
    · refine ⟨⟨r.masked_as, r.instances ++ [(alookup r.masked_as counters).getD 0 + 1]⟩,
        ?_, rfl⟩
      rw [alookup_aset_self]
      simp only [Option.getD_some]
      exact alookup_aset_self _ _ _

/-- Witness for C5 at a concrete store (a repeat call ignores the supplied value). -/
theorem C5_add_to_mapping_record_witness :
    (add_to_mapping ⟨[(lit "surname", [(lit "Кова", ⟨lit "Миро", [1]⟩)])],
        [(lit "surname", 1)]⟩
      [(lit "Миро", 1)] (lit "surname") (lit "Кова") (lit "Інше")).1 = lit "Миро" := by
  have h := C5_add_to_mapping_record
    ⟨[(lit "surname", [(lit "Кова", ⟨lit "Миро", [1]⟩)])], [(lit "surname", 1)]⟩
    [(lit "Миро", 1)] (lit "surname") (lit "Кова") (lit "Інше")
    [(lit "Кова", ⟨lit "Миро", [1]⟩)] _ _ _ (by decide) rfl
  exact (h.1 ⟨lit "Миро", [1]⟩ (by decide)).1

/-- Helper: on a first encounter `add_to_mapping` returns the supplied value. -/
theorem add_to_mapping_val_new
    (d : MaskingDict) (counters : Counters) (category original masked : Str)
    (hnew : alookup original ((alookup category d.mappings).getD []) = none) :
    (add_to_mapping d counters category original masked).1 = masked := by
  simp only [add_to_mapping, hnew, get_next_instance]

/-- Helper: `digitChar` always yields a decimal digit character. -/
theorem isDigitChar_digitChar (n : Nat) : isDigitChar (digitChar n) = true := by
  simp only [digitChar]
  split_ifs <;> decide

/-- Helper: `drawDigits` yields exactly `n` decimal digit characters. -/
theorem drawDigits_spec (n : Nat) (st : RandState) :
    (drawDigits n st).1.length = n ∧ (drawDigits n st).1.all isDigitChar := by
  induction n generalizing st with
  | zero => simp [drawDigits]
  | succ k ih =>
    have h := ih (randint 0 9 st).2
    simp only [drawDigits]
    constructor
    · simp [h.1]
    · simp only [List.all_cons, Bool.and_eq_true]
      exact ⟨isDigitChar_digitChar _, h.2⟩

/-- C6 (format preservation and pass-through of `mask_ipn`).
For an unrecorded original: a 10-digit input yields a 10-digit masked
value with the first three characters and the last character preserved;
any other input is returned unchanged with the whole state untouched
(total function, no exception). -/
theorem C6_mask_ipn_format
    (original : Str) (st : MaskState)
    (hnew : alookup original ((alookup (lit "ipn") st.dict.mappings).getD []) = none) :
    ((original.length = 10 ∧ pyIsDigit original) →
      ((mask_ipn original st).1.length = 10
       ∧ pyIsDigit (mask_ipn original st).1
       ∧ pyTake 3 (mask_ipn original st).1 = pyTake 3 original
       ∧ pyTakeLast 1 (mask_ipn original st).1 = pyTakeLast 1 original))
    ∧ (¬ (original.length = 10 ∧ pyIsDigit original) →
      mask_ipn original st = (original, st)) := by
  constructor
  · intro hshape
    have hmid := drawDigits_spec 6 (randSeed (get_deterministic_seed original))
    set middle := (drawDigits 6 (randSeed (get_deterministic_seed original))).1 with hmiddef
    have hval : (mask_ipn original st).1 =
        pyTake 3 original ++ middle ++ pyTakeLast 1 original := by
      simp only [mask_ipn, hnew, if_neg (not_not_intro hshape)]
      exact add_to_mapping_val_new _ _ _ _ _ hnew
    have hlen3 : (pyTake 3 original).length = 3 := by
      simp [pyTake, List.length_take, hshape.1]
    have hlen1 : (pyTakeLast 1 original).length = 1 := by
      simp [pyTakeLast, List.length_drop, hshape.1]
    have hlen : (mask_ipn original st).1.length = 10 := by
      rw [hval]
      simp only [List.length_append, hlen3, hlen1, hmid.1]
    refine ⟨hlen, ?_, ?_, ?_⟩
    · -- every character of the masked value is a digit
      have hall : ∀ c ∈ original, isDigitChar c := by
        have h2 := hshape.2
        simp only [pyIsDigit, Bool.and_eq_true, List.all_eq_true] at h2
        exact h2.2
      have hmem : ∀ c ∈ pyTake 3 original ++ middle ++ pyTakeLast 1 original,
          isDigitChar c := by
        intro c hc
        rcases List.mem_append.mp hc with hc2 | hc3
        · rcases List.mem_append.mp hc2 with hc4 | hc5
          · exact hall c (List.mem_of_mem_take hc4)
          · exact List.all_eq_true.mp hmid.2 c hc5
        · exact hall c (List.mem_of_mem_drop hc3)
      rw [hval]
      simp only [pyIsDigit, Bool.and_eq_true, List.all_eq_true]
      refine ⟨?_, hmem⟩
      rw [hval] at hlen
      cases hA : pyTake 3 original ++ middle ++ pyTakeLast 1 original with
      | nil => rw [hA] at hlen; simp at hlen
      | cons c rest => simp
    · rw [hval, pyTake, List.append_assoc,
        List.take_append_of_le_length (le_of_eq hlen3.symm)]
      simp [pyTake, List.take_take]
    · rw [hval, pyTakeLast]
      have h9 : (pyTake 3 original ++ middle ++ pyTakeLast 1 original).length - 1 =
          (pyTake 3 original ++ middle).length := by
        rw [hval] at hlen
        simp only [List.length_append] at hlen ⊢
        omega
      rw [h9, List.drop_left]
  · intro hbad
    simp only [mask_ipn, hnew, if_pos hbad]

/-- Witness for C6 (both branches at concrete inputs). -/
theorem C6_mask_ipn_format_witness :
    (mask_ipn (lit "1234567890")
        ⟨⟨[(lit "ipn", [])], []⟩, [], ⟨7⟩, 0⟩).1.length = 10
    ∧ mask_ipn (lit "12345")
        ⟨⟨[(lit "ipn", [])], []⟩, [], ⟨7⟩, 0⟩
      = (lit "12345", ⟨⟨[(lit "ipn", [])], []⟩, [], ⟨7⟩, 0⟩) := by
  constructor
  · exact ((C6_mask_ipn_format (lit "1234567890")
      ⟨⟨[(lit "ipn", [])], []⟩, [], ⟨7⟩, 0⟩ (by decide)).1 (by decide)).1
  · exact (C6_mask_ipn_format (lit "12345")
      ⟨⟨[(lit "ipn", [])], []⟩, [], ⟨7⟩, 0⟩ (by decide)).2 (by decide)

/-- C3 (determinism of the seeded generator).
With the original unrecorded (fresh store), the masked value produced by
`mask_ipn` is a function of the original alone: two runs from any two
run states — in particular with different global generator states and
different counters, i.e. after arbitrary earlier masking operations —
produce the identical masked value, because the generator is re-seeded
from the hash of the original immediately before the draws. -/
theorem C3_mask_ipn_deterministic
    (original : Str) (st1 st2 : MaskState)
    (h1 : alookup original ((alookup (lit "ipn") st1.dict.mappings).getD []) = none)
    (h2 : alookup original ((alookup (lit "ipn") st2.dict.mappings).getD []) = none) :
    (mask_ipn original st1).1 = (mask_ipn original st2).1 := by
  by_cases hshape : original.length = 10 ∧ pyIsDigit original
  · simp only [mask_ipn, h1, h2, if_neg (not_not_intro hshape)]
    rw [add_to_mapping_val_new _ _ _ _ _ h1, add_to_mapping_val_new _ _ _ _ _ h2]
  · simp only [mask_ipn, h1, h2, if_pos hshape]

/-- Witness for C3: two run states with different generator states and
different counters give the same masked IPN. -/
theorem C3_mask_ipn_deterministic_witness :
    (mask_ipn (lit "1234567890") ⟨⟨[(lit "ipn", [])], []⟩, [], ⟨7⟩, 0⟩).1
    = (mask_ipn (lit "1234567890")
        ⟨⟨[(lit "ipn", [])], []⟩, [(lit "x", 5)], ⟨99999⟩, 3⟩).1 :=
  C3_mask_ipn_deterministic (lit "1234567890")
    ⟨⟨[(lit "ipn", [])], []⟩, [], ⟨7⟩, 0⟩
    ⟨⟨[(lit "ipn", [])], []⟩, [(lit "x", 5)], ⟨99999⟩, 3⟩
    (by decide) (by decide)

/-- Helper: `toNat` of `Char.ofNat` for values below the surrogate range. -/
theorem charOfNatToNat (n : Nat) (h : n < 55296) : (Char.ofNat n).toNat = n := by
  simp [Char.ofNat, Char.ofNatAux, Char.toNat, Nat.isValidChar, h]
  rfl

/-- Helper: `pyToLower` as an if-tree over `Prop` conditions. -/
theorem toLower_eq (c : Char) :
    pyToLower c = (if 65 ≤ c.toNat ∧ c.toNat ≤ 90 then Char.ofNat (c.toNat + 32)
    else if 0x410 ≤ c.toNat ∧ c.toNat ≤ 0x42F then Char.ofNat (c.toNat + 32)
    else if 0x400 ≤ c.toNat ∧ c.toNat ≤ 0x40F then Char.ofNat (c.toNat + 80)
    else if c.toNat = 0x490 then Char.ofNat 0x491 else c) := by
  unfold pyToLower
  simp [between, decide_eq_true_eq]

/-- Helper: `pyToUpper` as an if-tree over `Prop` conditions. -/
theorem toUpper_eq (c : Char) :
    pyToUpper c = (if 97 ≤ c.toNat ∧ c.toNat ≤ 122 then Char.ofNat (c.toNat - 32)
    else if 0x430 ≤ c.toNat ∧ c.toNat ≤ 0x44F then Char.ofNat (c.toNat - 32)
    else if 0x450 ≤ c.toNat ∧ c.toNat ≤ 0x45F then Char.ofNat (c.toNat - 80)
    else if c.toNat = 0x491 then Char.ofNat 0x490 else c) := by
  unfold pyToUpper
  simp [between, decide_eq_true_eq]

/-- Helper: lowering after uppercasing is just lowering. -/
theorem pyToLower_pyToUpper (c : Char) : pyToLower (pyToUpper c) = pyToLower c := by
  rw [toUpper_eq]
  split_ifs with h1 h2 h3 h4
  · have ht : (Char.ofNat (c.toNat - 32)).toNat = c.toNat - 32 := charOfNatToNat _ (by omega)
    rw [toLower_eq, toLower_eq c, ht]
    rw [if_pos (by omega), if_neg (by omega), if_neg (by omega), if_neg (by omega),
      if_neg (by omega)]
    have : c.toNat - 32 + 32 = c.toNat := by omega
    rw [this, Char.ofNat_toNat]
  · have ht : (Char.ofNat (c.toNat - 32)).toNat = c.toNat - 32 := charOfNatToNat _ (by omega)
    rw [toLower_eq, toLower_eq c, ht]
    rw [if_neg (by omega), if_pos (by omega), if_neg (by omega), if_neg (by omega),
      if_neg (by omega), if_neg (by omega)]
    have : c.toNat - 32 + 32 = c.toNat := by omega
    rw [this, Char.ofNat_toNat]
  · have ht : (Char.ofNat (c.toNat - 80)).toNat = c.toNat - 80 := charOfNatToNat _ (by omega)
    rw [toLower_eq, toLower_eq c, ht]
    rw [if_neg (by omega), if_neg (by omega), if_pos (by omega), if_neg (by omega),
      if_neg (by omega), if_neg (by omega), if_neg (by omega)]
    have : c.toNat - 80 + 80 = c.toNat := by omega
    rw [this, Char.ofNat_toNat]
  · have ht : (Char.ofNat 0x490).toNat = 0x490 := charOfNatToNat _ (by omega)
    rw [toLower_eq, toLower_eq c, ht]
    rw [if_neg (by omega), if_neg (by omega), if_neg (by omega), if_pos (by omega),
      if_neg (by omega), if_neg (by omega), if_neg (by omega), if_neg (by omega)]
    rw [← h4, Char.ofNat_toNat]
  · rfl

/-- Helper: `pyToLower` is idempotent. -/
theorem pyToLower_pyToLower (c : Char) : pyToLower (pyToLower c) = pyToLower c := by
  rw [toLower_eq c]
  split_ifs with h1 h2 h3 h4
  · have ht : (Char.ofNat (c.toNat + 32)).toNat = c.toNat + 32 := charOfNatToNat _ (by omega)
    rw [toLower_eq]
    rw [ht, if_neg (by omega), if_neg (by omega), if_neg (by omega), if_neg (by omega)]
  · have ht : (Char.ofNat (c.toNat + 32)).toNat = c.toNat + 32 := charOfNatToNat _ (by omega)
    rw [toLower_eq]
    rw [ht, if_neg (by omega), if_neg (by omega), if_neg (by omega), if_neg (by omega)]
  · have ht : (Char.ofNat (c.toNat + 80)).toNat = c.toNat + 80 := charOfNatToNat _ (by omega)
    rw [toLower_eq]
    rw [ht, if_neg (by omega), if_neg (by omega), if_neg (by omega), if_neg (by omega)]
  · have ht : (Char.ofNat 0x491).toNat = 0x491 := charOfNatToNat _ (by omega)
    rw [toLower_eq]
    rw [ht, if_neg (by omega), if_neg (by omega), if_neg (by omega), if_neg (by omega)]
  · rw [toLower_eq c]
    rw [if_neg h1, if_neg h2, if_neg h3, if_neg h4]

/-- Helper: lowering an uppercased string is lowering it. -/
theorem pyLower_pyUpper (s : Str) : pyLower (pyUpper s) = pyLower s := by
  unfold pyLower pyUpper
  rw [List.map_map]
  exact List.map_congr_left (fun c _ => pyToLower_pyToUpper c)

/-- Helper: `pyLower` is idempotent at the string level. -/
theorem pyLower_pyLower (s : Str) : pyLower (pyLower s) = pyLower s := by
  unfold pyLower
  rw [List.map_map]
  exact List.map_congr_left (fun c _ => pyToLower_pyToLower c)

/-- Helper: lowering a capitalized string is lowering it. -/
theorem pyLower_pyCapitalize (s : Str) : pyLower (pyCapitalize s) = pyLower s := by
  cases s with
  | nil => rfl
  | cons c rest =>
    show pyLower (pyToUpper c :: pyLower rest) = pyLower (c :: rest)
    show pyToLower (pyToUpper c) :: pyLower (pyLower rest) = pyToLower c :: pyLower rest
    rw [pyToLower_pyToUpper, pyLower_pyLower]

/-- C10 (abbreviation whitelist pass-through).
A string whose lowercase form is in the fixed abbreviation whitelist is
returned by `mask_surname` unchanged, with the mapping store, the instance
counters and the generator states untouched. -/
theorem C10_abbreviation_whitelist (original : Str) (st : MaskState)
    (h : ABBREVIATION_WHITELIST.contains (pyLower original) = true) :
    mask_surname original st = (original, st) := by
  unfold mask_surname
  rw [if_pos h]

/-- Witness for C10: the abbreviation "ЗСУ" is left unmasked. -/
theorem C10_abbreviation_whitelist_witness :
    mask_surname (lit "ЗСУ") ⟨⟨[(lit "surname", [])], []⟩, [], ⟨0⟩, 0⟩
      = (lit "ЗСУ", ⟨⟨[(lit "surname", [])], []⟩, [], ⟨0⟩, 0⟩) :=
  C10_abbreviation_whitelist (lit "ЗСУ") ⟨⟨[(lit "surname", [])], []⟩, [], ⟨0⟩, 0⟩
    (by decide)


/-- Helper: a `randChoice` from a nonempty list is a member of it. -/
theorem randChoice_mem (xs : List α) (d : α) (st : RandState) (h : xs ≠ []) :
    (randChoice xs d st).1 ∈ xs := by
  unfold randChoice
  have hlen : 0 < xs.length := List.length_pos.mpr h
  have hlt : (drawNat st).1 % xs.length < xs.length := Nat.mod_lt _ hlen
  have := List.get?_eq_get (l := xs) hlt
  simp only [this, Option.getD_some]
  exact List.get_mem _ _ _

/-- Helper: the rank redraw loop ends with the original key only when all
its fuel (attempts) is spent. -/
theorem rank_retry_loop_exhaust (key : Str) (hierarchy : List Str) (idx : Nat) :
    ∀ (fuel attempts : Nat) (masked : Str) (rng : RandState),
    pyLower (rank_retry_loop key hierarchy idx fuel attempts masked rng).1 = key →
    (rank_retry_loop key hierarchy idx fuel attempts masked rng).2.1 = attempts + fuel := by
  intro fuel
  induction fuel with
  | zero => intro attempts masked rng _; simp [rank_retry_loop]
  | succ f ih =>
    intro attempts masked rng h
    by_cases hc : pyLower masked = key
    · simp only [rank_retry_loop, if_pos hc] at h ⊢
      rw [ih (attempts + 1) _ _ h]
      omega
    · simp only [rank_retry_loop, if_neg hc] at h ⊢
      exact absurd h hc

/-- Helper: the rank redraw loop always returns a hierarchy entry at a
clamped shifted index, provided it starts with one. -/
theorem rank_retry_loop_base (key : Str) (hierarchy : List Str) (idx : Nat) :
    ∀ (fuel attempts : Nat) (masked : Str) (rng : RandState),
    (∃ shift ∈ RANK_SHIFTS,
      masked = (hierarchy.get? (clampIdx hierarchy.length idx shift)).getD (lit "")) →
    ∃ shift ∈ RANK_SHIFTS,
      (rank_retry_loop key hierarchy idx fuel attempts masked rng).1 =
        (hierarchy.get? (clampIdx hierarchy.length idx shift)).getD (lit "") := by
  intro fuel
  induction fuel with
  | zero => intro attempts masked rng h; simpa [rank_retry_loop] using h
  | succ f ih =>
    intro attempts masked rng h
    by_cases hc : pyLower masked = key
    · simp only [rank_retry_loop, if_pos hc]
      apply ih
      exact ⟨(randChoice RANK_SHIFTS 0 rng).1, randChoice_mem _ _ _ (by decide), rfl⟩
    · simp only [rank_retry_loop, if_neg hc]
      exact h

/-- Helper: the name retry loop ends case-insensitively equal to the
original only when all its fuel (attempts) is spent. -/
theorem name_retry_loop_exhaust (original case gender : Str) (fl : Char) :
    ∀ (fuel attempts : Nat) (masked : Str) (rng : RandState) (fk : Nat),
    pyLower (name_retry_loop original case gender fl fuel attempts masked rng fk).1 =
      pyLower original →
    (name_retry_loop original case gender fl fuel attempts masked rng fk).2.1 =
      attempts + fuel := by
  intro fuel
  induction fuel with
  | zero => intro attempts masked rng fk _; simp [name_retry_loop]
  | succ f ih =>
    intro attempts masked rng fk h
    by_cases hc : pyLower masked = pyLower original
    · simp only [name_retry_loop, if_pos hc] at h ⊢
      rw [ih (attempts + 1) _ _ _ h]
      omega
    · simp only [name_retry_loop, if_neg hc] at h ⊢
      exact absurd h hc

/-- Helper: if the generation block of `mask_name` ends case-insensitively
equal to the original, its retry loop was exhausted (10 attempts). -/
theorem mask_name_gen_exhaust (original : Str) (gh ph : Option Str) (st : MaskState)
    (h : pyLower (mask_name_gen original gh ph st).1.1 = pyLower original) :
    (mask_name_gen original gh ph st).1.2 = 10 := by
  unfold mask_name_gen at h ⊢
  have := name_retry_loop_exhaust original _ _ _ 10 0 _ _ _ h
  simpa using this

/-- Helper: the final casing reapplication of `mask_name` does not change
the lowercased value. -/
theorem caseReapply_pyLower (u c l : Bool) (s : Str) :
    pyLower (if u then pyUpper s else if c then pyCapitalize s
      else if l then pyLower s else s) = pyLower s := by
  by_cases hu : u
  · simp [hu, pyLower_pyUpper]
  · by_cases hcp : c
    · simp [hu, hcp, pyLower_pyCapitalize]
    · by_cases hl : l
      · simp [hu, hcp, hl, pyLower_pyLower]
      · simp [hu, hcp, hl]

/-- C7 (amended: self-mapping avoidance).
For a given name masked for the first time, the masked value is not
case-insensitively equal to the original unless the 10-attempt retry loop
was exhausted; for ranks, the redraw loop yields a base equal to the
original key only when its attempts are exhausted.  (`mask_surname`
performs no such check at all — see the counterexample.) -/
theorem C7_retry_no_self_mapping
    (original : Str) (gender_hint patronymic_hint : Option Str) (st : MaskState)
    (hnew : alookup original ((alookup (lit "name") st.dict.mappings).getD []) = none)
    (hne : original.isEmpty = false) :
    (pyLower (mask_name original gender_hint patronymic_hint st).1 ≠ pyLower original
      ∨ nameAttemptsOf original gender_hint patronymic_hint st = 10)
    ∧ (∀ (key : Str) (hierarchy : List Str) (idx fuel attempts : Nat)
        (masked : Str) (rng : RandState),
        pyLower (rank_retry_loop key hierarchy idx fuel attempts masked rng).1 = key →
        (rank_retry_loop key hierarchy idx fuel attempts masked rng).2.1
          = attempts + fuel) := by
  refine ⟨?_, fun key hierarchy idx fuel attempts masked rng h =>
    rank_retry_loop_exhaust key hierarchy idx fuel attempts masked rng h⟩
  by_cases hl : pyLower (mask_name_gen original gender_hint patronymic_hint st).1.1
      = pyLower original
  · exact Or.inr (mask_name_gen_exhaust original gender_hint patronymic_hint st hl)
  · left
    have hval : (mask_name original gender_hint patronymic_hint st).1 =
        (let masked1 := (mask_name_gen original gender_hint patronymic_hint st).1.1
         if pyIsUpper original then pyUpper masked1
         else if (match original with
           | [] => false
           | c :: rest => isUpperChar c
               && (decide (original.length = 1) || pyIsLower rest)) then
           pyCapitalize masked1
         else if pyIsLower original then pyLower masked1 else masked1) := by
      simp only [mask_name, hnew, hne, Bool.false_eq_true, if_false]
      exact add_to_mapping_val_new _ _ _ _ _ hnew
    rw [hval]
    simp only []
    rw [caseReapply_pyLower]
    exact hl

/-- Witness for C7 at a concrete first-time name. -/
theorem C7_retry_no_self_mapping_witness :
    pyLower (mask_name (lit "Петро") none none
        ⟨⟨[(lit "name", [])], []⟩, [], ⟨0⟩, 0⟩).1 ≠ pyLower (lit "Петро")
    ∨ nameAttemptsOf (lit "Петро") none none
        ⟨⟨[(lit "name", [])], []⟩, [], ⟨0⟩, 0⟩ = 10 :=
  (C7_retry_no_self_mapping (lit "Петро") none none
    ⟨⟨[(lit "name", [])], []⟩, [], ⟨0⟩, 0⟩ (by decide) (by decide)).1

/-- C7 counterexample: `mask_surname` has no self-mapping avoidance.
On a fresh store, the surname "Жук" (the modelled faker returning the real
surname "Жук") is masked to itself on its first encounter, with no retry
loop involved, refuting the claim for surnames. -/
theorem C7_counterexample_surname_self_map :
    alookup (lit "Жук")
        ((alookup (lit "surname")
          (⟨⟨[(lit "surname", [])], []⟩, [], ⟨0⟩, (0 : Nat)⟩ : MaskState).dict.mappings).getD [])
      = none
    ∧ (mask_surname (lit "Жук")
        ⟨⟨[(lit "surname", [])], []⟩, [], ⟨0⟩, 0⟩).1 = lit "Жук" := by
  exact ⟨by decide, by decide⟩

/-- C8 (hierarchy-shift masking of ranks; spec-modelled tables).
When the lowercased original is unrecorded and its base form is located in
one of the four service-category hierarchies at index `idx`, `mask_rank`
proceeds with a base drawn from the *same* hierarchy at index
`idx + shift` for some `shift ∈ {-2, -1, 1, 2}`, clamped to the hierarchy
bounds (redrawn at most 10 times while colliding with the original key),
and then re-inflects, records and re-cases it; in particular
`mask_rank("Капітан")` yields "Лейтенант", the army rank two positions
below "капітан" (index 16 versus 18), never equal to "Капітан". -/
theorem C8_mask_rank_hierarchy_shift
    (original : Str) (st : MaskState) (category matched : Str)
    (hierarchy : List Str) (idx : Nat)
    (hnew : alookup (pyLower original)
      ((alookup (lit "rank") st.dict.mappings).getD []) = none)
    (hmatch : get_rank_category_and_match (pyLower original) = some (category, matched))
    (hhier : (category = lit "army" ∧ hierarchy = ARMY_RANKS)
      ∨ (category = lit "naval" ∧ hierarchy = NAVAL_RANKS)
      ∨ (category = lit "legal" ∧ hierarchy = LEGAL_RANKS)
      ∨ (category = lit "medical" ∧ hierarchy = MEDICAL_RANKS))
    (hidx : listIdx (pyLower matched) (hierarchy.map pyLower) = some idx) :
    (∃ shift ∈ RANK_SHIFTS, ∃ rngF,
      mask_rank original st = rank_finalize original (pyLower original)
        ((get_rank_info (pyLower original)).map (fun t => t.2.1))
        ((hierarchy.get? (clampIdx hierarchy.length idx shift)).getD (lit "")) st rngF)
    ∧ ((mask_rank (lit "Капітан")
          ⟨⟨[(lit "rank", [])], []⟩, [], ⟨0⟩, 0⟩).1 = lit "Лейтенант"
       ∧ listIdx (lit "лейтенант") (ARMY_RANKS.map pyLower) = some 16
       ∧ listIdx (lit "капітан") (ARMY_RANKS.map pyLower) = some 18
       ∧ (mask_rank (lit "Капітан")
          ⟨⟨[(lit "rank", [])], []⟩, [], ⟨0⟩, 0⟩).1 ≠ lit "Капітан") := by
  constructor
  · obtain ⟨shift, hs, hbase⟩ := rank_retry_loop_base (pyLower original) hierarchy idx 10 0
      ((hierarchy.get? (clampIdx hierarchy.length idx
        (randChoice RANK_SHIFTS 0 (randSeed (get_deterministic_seed (pyLower original)))).1)).getD (lit ""))
      (randChoice RANK_SHIFTS 0 (randSeed (get_deterministic_seed (pyLower original)))).2
      ⟨(randChoice RANK_SHIFTS 0 (randSeed (get_deterministic_seed (pyLower original)))).1,
        randChoice_mem _ _ _ (by decide), rfl⟩
    refine ⟨shift, hs,
      (rank_retry_loop (pyLower original) hierarchy idx 10 0
        ((hierarchy.get? (clampIdx hierarchy.length idx
          (randChoice RANK_SHIFTS 0 (randSeed (get_deterministic_seed (pyLower original)))).1)).getD (lit ""))
        (randChoice RANK_SHIFTS 0 (randSeed (get_deterministic_seed (pyLower original)))).2).2.2, ?_⟩
    rw [← hbase]
    rcases hhier with ⟨hc, hh⟩ | ⟨hc, hh⟩ | ⟨hc, hh⟩ | ⟨hc, hh⟩ <;> subst hc <;> subst hh
    · simp only [mask_rank, hnew, mask_rank_generate, hmatch, if_pos rfl, if_true, hidx]
    · simp only [mask_rank, hnew, mask_rank_generate, hmatch,
        eq_false (show ¬(lit "naval" = lit "army") by decide), if_false,
        if_pos rfl, if_true, hidx]
    · simp only [mask_rank, hnew, mask_rank_generate, hmatch,
        eq_false (show ¬(lit "legal" = lit "army") by decide),
        eq_false (show ¬(lit "legal" = lit "naval") by decide), if_false,
        if_pos rfl, if_true, hidx]
    · simp only [mask_rank, hnew, mask_rank_generate, hmatch,
        eq_false (show ¬(lit "medical" = lit "army") by decide),
        eq_false (show ¬(lit "medical" = lit "naval") by decide),
        eq_false (show ¬(lit "medical" = lit "legal") by decide), if_false,
        if_pos rfl, if_true, hidx]
  · exact ⟨by decide, by decide, by decide, by decide⟩

/-- Witness for C8: the general part applied to "Капітан" on a fresh store. -/
theorem C8_mask_rank_hierarchy_shift_witness :
    ∃ shift ∈ RANK_SHIFTS, ∃ rngF,
      mask_rank (lit "Капітан") ⟨⟨[(lit "rank", [])], []⟩, [], ⟨0⟩, 0⟩
        = rank_finalize (lit "Капітан") (pyLower (lit "Капітан"))
          ((get_rank_info (pyLower (lit "Капітан"))).map (fun t => t.2.1))
          ((ARMY_RANKS.get? (clampIdx ARMY_RANKS.length 18 shift)).getD (lit ""))
          ⟨⟨[(lit "rank", [])], []⟩, [], ⟨0⟩, 0⟩ rngF :=
  (C8_mask_rank_hierarchy_shift (lit "Капітан")
    ⟨⟨[(lit "rank", [])], []⟩, [], ⟨0⟩, 0⟩ (lit "army") (lit "капітан")
    ARMY_RANKS 18 (by decide) (by decide) (Or.inl ⟨rfl, rfl⟩) (by decide)).1

/-- C2 (collision ordering in the generic unmask pass).
With two distinct originals `A` (recorded first, instance 1) and `B`
(instance 2) of the same non-rank category both masked to `M`, and a
masked text whose whole-word occurrences of `M` are exactly
`(s1, e1), (s2, e2)` in order, `unmask_other_data` restores `A` at the
first occurrence and `B` at the second — matching sequential left-to-right
occurrence numbers against the recorded instance numbers, not
first-match-wins — and counts two restorations. -/
theorem C2_collision_instance_order
    (text A B M c : Str) (s1 e1 s2 e2 : Nat)
    (hcat : c ≠ lit "rank") (hM : M ≠ [])
    (hocc : find_all_occurrences text M = [(s1, e1), (s2, e2)])
    (h1 : e1 = s1 + M.length) (h2 : e2 = s2 + M.length)
    (h12 : e1 ≤ s2) (hlen : e2 ≤ text.length)
    (hm1 : pyLower (pySlice s1 e1 text) = pyLower M)
    (hm2 : pyLower (pySlice s2 e2 text) = pyLower M)
    (hcase1 : apply_original_case (pySlice s1 e1 text) A = A)
    (hcase2 : apply_original_case (pySlice s2 e2 text) B = B) :
    unmask_other_data text [(c, [(A, ⟨M, [1]⟩), (B, ⟨M, [2]⟩)])]
      = (pyTake s1 text ++ A ++ pySlice e1 s2 text ++ B ++ pyDrop e2 text, 2, 0) := by
  have hMlen : 0 < M.length := List.length_pos.mpr hM
  have hs1s2 : s1 < s2 := by omega
  have hs2len : s2 ≤ text.length := by omega
  have htake2len : (pyTake s2 text).length = s2 := by
    simp [pyTake, List.length_take]; omega
  have hfilt : List.filter (fun kv => kv.1 ≠ lit "rank")
      [(c, [(A, (⟨M, [1]⟩ : MaskRecord)), (B, ⟨M, [2]⟩)])]
      = [(c, [(A, ⟨M, [1]⟩), (B, ⟨M, [2]⟩)])] := by
    simp [hcat]
  have hcoll : unmask_other_data text [(c, [(A, ⟨M, [1]⟩), (B, ⟨M, [2]⟩)])]
      = ((sortStartDesc [(s1, e1, A, M), (s2, e2, B, M)]).foldl applyRepl text, 2, 0) := by
    simp only [unmask_other_data, hfilt, build_instance_map, List.foldl,
      alookup, aset, nset, Option.getD_none, Option.getD_some, if_pos rfl,
      hocc, numberOccs, nlookup]
    norm_num [nlookup, nset]
  rw [hcoll]
  have hsort : sortStartDesc [(s1, e1, A, M), (s2, e2, B, M)]
      = [(s2, e2, B, M), (s1, e1, A, M)] := by
    simp only [sortStartDesc, List.foldl, insertStartDesc, if_pos hs1s2]
  rw [hsort]
  have happ2 : applyRepl text (s2, e2, B, M)
      = pyTake s2 text ++ B ++ pyDrop e2 text := by
    simp only [applyRepl, hm2, if_true, hcase2]
  have hslice_pres : pySlice s1 e1 (pyTake s2 text ++ B ++ pyDrop e2 text)
      = pySlice s1 e1 text := by
    show ((pyTake s2 text ++ B ++ pyDrop e2 text).take e1).drop s1 = _
    rw [List.append_assoc, List.take_append_of_le_length (by rw [htake2len]; omega)]
    have hx : (pyTake s2 text).take e1 = text.take e1 := by
      simp only [pyTake, List.take_take]
      rw [Nat.min_eq_left (by omega)]
    rw [hx]
    rfl
  have ht1 : (pyTake s2 text ++ B ++ pyDrop e2 text).take s1 = pyTake s1 text := by
    rw [List.append_assoc, List.take_append_of_le_length (by rw [htake2len]; omega)]
    simp only [pyTake, List.take_take]
    rw [Nat.min_eq_left (by omega)]
  have hd1 : (pyTake s2 text ++ B ++ pyDrop e2 text).drop e1
      = pySlice e1 s2 text ++ (B ++ pyDrop e2 text) := by
    rw [List.append_assoc, List.drop_append_of_le_length (by rw [htake2len]; omega)]
    rfl
  have happ1 : applyRepl (pyTake s2 text ++ B ++ pyDrop e2 text) (s1, e1, A, M)
      = pyTake s1 text ++ A ++ pySlice e1 s2 text ++ B ++ pyDrop e2 text := by
    simp only [applyRepl, hslice_pres, hm1, if_true, hcase1]
    show (pyTake s2 text ++ B ++ pyDrop e2 text).take s1 ++ A
        ++ (pyTake s2 text ++ B ++ pyDrop e2 text).drop e1 = _
    rw [ht1, hd1]
    simp [List.append_assoc]
  show (applyRepl (applyRepl text (s2, e2, B, M)) (s1, e1, A, M), 2, 0)
      = (pyTake s1 text ++ A ++ pySlice e1 s2 text ++ B ++ pyDrop e2 text, 2, 0)
  rw [happ2, happ1]

/-- Witness for C2 on a concrete collision. -/
theorem C2_collision_instance_order_witness :
    unmask_other_data (lit "іваненко і іваненко тут")
      [(lit "surname", [(lit "петренко", ⟨lit "іваненко", [1]⟩),
        (lit "сидоренко", ⟨lit "іваненко", [2]⟩)])]
      = (pyTake 0 (lit "іваненко і іваненко тут") ++ lit "петренко"
          ++ pySlice 8 11 (lit "іваненко і іваненко тут") ++ lit "сидоренко"
          ++ pyDrop 19 (lit "іваненко і іваненко тут"), 2, 0) :=
  C2_collision_instance_order (lit "іваненко і іваненко тут")
    (lit "петренко") (lit "сидоренко") (lit "іваненко") (lit "surname")
    0 8 11 19 (by decide) (by decide) (by decide) (by decide) (by decide)
    (by decide) (by decide) (by decide) (by decide) (by decide) (by decide)
lemma andDecide_true {A B : Prop} [Decidable A] [Decidable B] :
    (decide A && decide B) = true ↔ (A ∧ B) := by simp

lemma detectInv_nil (skips : List SpanItem) : DetectInv skips [] :=
  ⟨List.Pairwise.nil, by simp, by simp⟩

lemma pairwise_snoc_of_clear (l : List SpanItem) (it : SpanItem)
    (hpw : List.Pairwise (fun a b => b.ty ∈ CHECKED_TYPES →
      ¬ (b.start < a.stop ∧ a.start < b.stop)) l)
    (hclear : ∀ a ∈ l, ¬ (it.start < a.stop ∧ a.start < it.stop)) :
    List.Pairwise (fun a b => b.ty ∈ CHECKED_TYPES →
      ¬ (b.start < a.stop ∧ a.start < b.stop)) (l ++ [it]) := by
  rw [List.pairwise_append]
  refine ⟨hpw, List.pairwise_singleton _ _, ?_⟩
  intro a ha b hb
  rw [List.mem_singleton] at hb
  subst hb
  exact fun _ => hclear a ha

lemma registerSpan_true_eq (skips acc : List SpanItem) (it : SpanItem) :
    registerSpan skips true acc it =
      (if ((skips.any fun sk => decide (sk.start ≤ it.start) && decide (it.stop ≤ sk.stop)) ||
          acc.any fun m => decide (it.start < m.stop) && decide (m.start < it.stop)) then acc
       else acc ++ [it]) := rfl

lemma registerSpan_false_eq (skips acc : List SpanItem) (it : SpanItem) :
    registerSpan skips false acc it =
      (if ((skips.any fun sk => decide (it.start < sk.stop) && decide (sk.start < it.stop)) ||
          acc.any fun m => decide (it.start < m.stop) && decide (m.start < it.stop)) then acc
       else acc ++ [it]) := rfl

lemma registerSpan_contain_inv (skips acc : List SpanItem) (it : SpanItem)
    (hacc : DetectInv skips acc)
    (hchk : it.ty ∈ CHECKED_TYPES)
    (hnbr : it.ty ≠ lit "br_standalone") :
    DetectInv skips (registerSpan skips true acc it) := by
  rw [registerSpan_true_eq]
  split
  · exact hacc
  · next h =>
    rw [Bool.not_eq_true, Bool.or_eq_false_iff] at h
    obtain ⟨hskip, hcand⟩ := h
    rw [List.any_eq_false] at hskip hcand
    obtain ⟨hpw, hcontain, hover⟩ := hacc
    refine ⟨?_, ?_, ?_⟩
    · refine pairwise_snoc_of_clear _ _ hpw ?_
      intro a ha hconf
      exact hcand a ha (andDecide_true.mpr hconf)
    · intro x hx hxty sk hsk
      rcases List.mem_append.mp hx with hxa | hxi
      · exact hcontain x hxa hxty sk hsk
      · rw [List.mem_singleton] at hxi
        subst hxi
        exact fun hcon => hskip sk hsk (andDecide_true.mpr hcon)
    · intro x hx hxty sk hsk
      rcases List.mem_append.mp hx with hxa | hxi
      · exact hover x hxa hxty sk hsk
      · rw [List.mem_singleton] at hxi
        subst hxi
        exact absurd hxty hnbr

lemma registerSpan_overlap_inv (skips acc : List SpanItem) (it : SpanItem)
    (hacc : DetectInv skips acc)
    (hchk : it.ty ∈ CHECKED_TYPES)
    (hncont : it.ty ∉ CONTAIN_TYPES) :
    DetectInv skips (registerSpan skips false acc it) := by
  rw [registerSpan_false_eq]
  split
  · exact hacc
  · next h =>
    rw [Bool.not_eq_true, Bool.or_eq_false_iff] at h
    obtain ⟨hskip, hcand⟩ := h
    rw [List.any_eq_false] at hskip hcand
    obtain ⟨hpw, hcontain, hover⟩ := hacc
    refine ⟨?_, ?_, ?_⟩
    · refine pairwise_snoc_of_clear _ _ hpw ?_
      intro a ha hconf
      exact hcand a ha (andDecide_true.mpr hconf)
    · intro x hx hxty sk hsk
      rcases List.mem_append.mp hx with hxa | hxi
      · exact hcontain x hxa hxty sk hsk
      · rw [List.mem_singleton] at hxi
        subst hxi
        exact absurd hxty hncont
    · intro x hx hxty sk hsk
      rcases List.mem_append.mp hx with hxa | hxi
      · exact hover x hxa hxty sk hsk
      · rw [List.mem_singleton] at hxi
        subst hxi
        exact fun hcon => hskip sk hsk (andDecide_true.mpr hcon)

lemma appendUnchecked_inv (skips acc : List SpanItem) (it : SpanItem)
    (hacc : DetectInv skips acc)
    (h1 : it.ty ∉ CHECKED_TYPES) (h2 : it.ty ∉ CONTAIN_TYPES)
    (h3 : it.ty ≠ lit "br_standalone") :
    DetectInv skips (acc ++ [it]) := by
  obtain ⟨hpw, hcontain, hover⟩ := hacc
  refine ⟨?_, ?_, ?_⟩
  · rw [List.pairwise_append]
    refine ⟨hpw, List.pairwise_singleton _ _, ?_⟩
    intro a ha b hb
    rw [List.mem_singleton] at hb
    subst hb
    exact fun hb1 => absurd hb1 h1
  · intro x hx hxty sk hsk
    rcases List.mem_append.mp hx with hxa | hxi
    · exact hcontain x hxa hxty sk hsk
    · rw [List.mem_singleton] at hxi
      subst hxi
      exact absurd hxty h2
  · intro x hx hxty sk hsk
    rcases List.mem_append.mp hx with hxa | hxi
    · exact hover x hxa hxty sk hsk
    · rw [List.mem_singleton] at hxi
      subst hxi
      exact absurd hxty h3

lemma foldl_inv_of_step {α : Type} (skips : List SpanItem)
    (step : List SpanItem → α → List SpanItem)
    (hstep : ∀ acc m, DetectInv skips acc → DetectInv skips (step acc m)) :
    ∀ (ms : List α) (acc : List SpanItem), DetectInv skips acc →
      DetectInv skips (ms.foldl step acc)
  | [], _, hacc => hacc
  | m :: ms, acc, hacc => foldl_inv_of_step skips step hstep ms (step acc m) (hstep acc m hacc)

lemma SpanItem_ty_mk (t f n : Str) (s e : Nat) :
    (SpanItem.mk t f n s e).ty = t := rfl

lemma analyze_number_sign_ty (text : Str) (p : Nat) (it : SpanItem)
    (h : analyze_number_sign_context text p = some it) :
    it.ty ∉ CHECKED_TYPES ∧ it.ty ∉ CONTAIN_TYPES ∧ it.ty ≠ lit "br_standalone" := by
  simp only [analyze_number_sign_context] at h
  repeat' split at h
  all_goals first
    | exact Option.noConfusion h
    | (cases Option.some.inj h;
       refine ⟨?_, ?_, ?_⟩ <;> (simp only [SpanItem_ty_mk]; decide))

lemma analyze_br_keyword_ty (text : Str) (p : Nat) (it : SpanItem)
    (h : analyze_br_keyword text p = some it) :
    it.ty = lit "br_standalone" := by
  simp only [analyze_br_keyword] at h
  repeat' split at h
  all_goals first
    | exact Option.noConfusion h
    | (cases Option.some.inj h; rfl)

lemma detect_spans_inv (text : Str) :
    DetectInv (detect_spans text).1 (detect_spans text).2 := by
  unfold detect_spans
  simp only [MASK_DATES, MASK_ORDERS, MASK_BR_NUMBERS, MASK_IPN, MASK_PASSPORT,
    MASK_MILITARY_ID, MASK_UNITS, MASK_BRIGADES, Bool.not_true, Bool.or_self,
    Bool.false_eq_true, if_true, if_false]
  refine foldl_inv_of_step _ _ ?_ _ _ <| foldl_inv_of_step _ _ ?_ _ _ <|
    foldl_inv_of_step _ _ ?_ _ _ <| foldl_inv_of_step _ _ ?_ _ _ <|
    foldl_inv_of_step _ _ ?_ _ _ <| foldl_inv_of_step _ _ ?_ _ _ <|
    foldl_inv_of_step _ _ ?_ _ _ <| foldl_inv_of_step _ _ ?_ _ _ <|
    detectInv_nil _
  · intro acc m hacc
    split
    · refine registerSpan_contain_inv _ _ _ hacc ?_ ?_ <;> (simp only [SpanItem_ty_mk]; decide)
    · exact hacc
  · intro acc m hacc
    refine registerSpan_contain_inv _ _ _ hacc ?_ ?_ <;> (simp only [SpanItem_ty_mk]; decide)
  · intro acc m hacc
    refine registerSpan_contain_inv _ _ _ hacc ?_ ?_ <;> (simp only [SpanItem_ty_mk]; decide)
  · intro acc m hacc
    refine registerSpan_contain_inv _ _ _ hacc ?_ ?_ <;> (simp only [SpanItem_ty_mk]; decide)
  · intro acc m hacc
    refine registerSpan_contain_inv _ _ _ hacc ?_ ?_ <;> (simp only [SpanItem_ty_mk]; decide)
  · intro acc m hacc
    refine registerSpan_contain_inv _ _ _ hacc ?_ ?_ <;> (simp only [SpanItem_ty_mk]; decide)
  · intro acc m hacc
    cases hb : analyze_br_keyword text m.1 with
    | none => simp only [hb]; exact hacc
    | some it =>
      simp only [hb]
      have hty := analyze_br_keyword_ty text m.1 it hb
      exact registerSpan_overlap_inv _ _ _ hacc (by rw [hty]; decide) (by rw [hty]; decide)
  · intro acc m hacc
    cases hn : analyze_number_sign_context text m with
    | none => simp only [hn]; exact hacc
    | some it =>
      simp only [hn]
      obtain ⟨h1, h2, h3⟩ := analyze_number_sign_ty text m it hn
      exact appendUnchecked_inv _ _ _ hacc h1 h2 h3

/-- C9 (conflict resolution between detected spans) — amended statement.
The spec claims every candidate span that overlaps an earlier-registered
candidate OR overlaps any skip span is dropped entirely.  What the code
guarantees is weaker: (1) a candidate registered by a checked pass
(standalone БР, identifiers, brigades, dates — but not the `№` contexts
pass, which never checks) overlaps no earlier-registered candidate;
(2) an identifier/brigade/date candidate is dropped only when it is
CONTAINED in a skip span, not when it merely overlaps one; (3) only the
standalone-БР pass drops on true overlap with a skip span.  Dropped
candidates are discarded entirely, never merged or re-scored. -/
theorem C9_span_conflict_policy (text : Str) :
    List.Pairwise (fun a b => b.ty ∈ CHECKED_TYPES →
      ¬ (b.start < a.stop ∧ a.start < b.stop)) (detect_spans text).2
    ∧ (∀ it ∈ (detect_spans text).2, it.ty ∈ CONTAIN_TYPES →
        ∀ sk ∈ (detect_spans text).1, ¬ (sk.start ≤ it.start ∧ it.stop ≤ sk.stop))
    ∧ (∀ it ∈ (detect_spans text).2, it.ty = lit "br_standalone" →
        ∀ sk ∈ (detect_spans text).1, ¬ (it.start < sk.stop ∧ sk.start < it.stop)) :=
  detect_spans_inv text

/-- C9 counterexample to the original statement: in
"пункту 12.03.2024" the legal-citation pass registers the skip span
(7, 9) over "12", and the date pass candidate "12.03.2024" at (7, 17)
overlaps that skip span (7 < 9 ∧ 7 < 17) without being contained in it
(¬ 17 ≤ 9); the candidate is nevertheless registered in items_to_mask,
so overlapping a skip span does not cause a drop. -/
theorem C9_counterexample_overlapping_skip_not_dropped :
    detect_spans (lit "пункту 12.03.2024")
      = ([⟨lit "legal_number", lit "12", lit "12", 7, 9⟩],
         [⟨lit "date", lit "12.03.2024", lit "12.03.2024", 7, 17⟩])
    ∧ (7 < 9 ∧ 7 < 17)
    ∧ ¬ (17 ≤ 9) := by
  refine ⟨by decide, by decide, by decide⟩

/-- C1 (round-trip) — refuted on the failing input "аб 123456".  On a
fresh store, masking records the single original "аб 123456" as
"АБ 126056" (no collision: the store holds exactly one record), and the
masked value occurs, as a case-insensitive whole word, only at the one
position where it was substituted — so both hypotheses of the claim
hold.  Yet unmasking the result with the produced mapping (a v2.1-logic
map) returns "АБ 123456", not the original: `mask_military_id`
uppercases the two-letter prefix via `normalize_identifier`, and the
generic unmask pass transfers the mask occurrence's casing onto the
restored original (`_apply_original_case`), so the original's lowercase
prefix is lost. -/
theorem C1_roundtrip_code_bug :
    (mask_text_context_aware (lit "аб 123456") initMaskState).1 = lit "АБ 126056"
    ∧ (mask_text_context_aware (lit "аб 123456") initMaskState).2.dict.mappings.filter
        (fun kv => !kv.2.isEmpty)
        = [(lit "military_id", [(lit "аб 123456", ⟨lit "АБ 126056", [1]⟩)])]
    ∧ find_all_occurrences (mask_text_context_aware (lit "аб 123456") initMaskState).1
        (lit "АБ 126056") = [(0, 9)]
    ∧ (unmask_text_v2 (mask_text_context_aware (lit "аб 123456") initMaskState).1
        (mask_text_context_aware (lit "аб 123456") initMaskState).2.dict.mappings
        (lit "v2.1")).1 = lit "АБ 123456"
    ∧ lit "АБ 123456" ≠ lit "аб 123456" := by
  exact ⟨by decide, by decide, by decide, by decide, by decide⟩
